import Mathlib

/-!
# thalesfsp/webserver: readiness aggregation, lifecycle of `Start`, assembly in `New`

Shallow embedding of the Go sources

* `handler/readiness.go`, `handler/liveness.go`, `handler/metrics.go`,
  `handler/stop.go`,
* `utils.go`, `webserver.go` (`isTimeoutError`, `Server.Start`, `New`),
* `options.go`, `internal/validation`, `internal/logger`, `telemetry`.

Conventions of the embedding

* a Go pointer to a `ReadinessDeterminer` is an address `Ptr` into a heap
  `Ptr → ReadinessDeterminer`; the mutex of a determiner only serialises
  accesses and is not represented (the model is sequential);
* a Go `error` value is `Option GoError` (`none` is `nil`);
* `time.Duration` is an integer number of nanoseconds;
* `http.ResponseWriter` is a record that is threaded through a handler.
-/

namespace Webserver

/-! ## `net/http`: the response writer -/

/-- Response writer of `net/http`: the header map, whether the status line
has been written, the status written, and the bytes of the body. -/
structure ResponseWriter where
  header : List (String × String)
  wroteHeader : Bool
  status : Nat
  body : String
deriving DecidableEq, Repr

namespace ResponseWriter

/-- Writer handed to a handler at the start of a request. -/
def fresh : ResponseWriter :=
  { header := [], wroteHeader := false, status := 0, body := "" }

/-- Go `w.Header().Set(key, value)`. -/
def headerSet (w : ResponseWriter) (key value : String) : ResponseWriter :=
  { w with header := (w.header.filter (fun kv => kv.1 != key)) ++ [(key, value)] }

/-- Go `w.Header().Del(key)`. -/
def headerDel (w : ResponseWriter) (key : String) : ResponseWriter :=
  { w with header := w.header.filter (fun kv => kv.1 != key) }

/-- Go `w.WriteHeader(code)`: the first call fixes the status, a later call is
superfluous and changes nothing. -/
def WriteHeader (w : ResponseWriter) (code : Nat) : ResponseWriter :=
  if w.wroteHeader then w else { w with wroteHeader := true, status := code }

/-- Go `w.Write(data)`: writes the status line with `200` when it has not been
written yet, then appends to the body. -/
def Write (w : ResponseWriter) (data : String) : ResponseWriter :=
  let w1 := if w.wroteHeader then w else w.WriteHeader 200
  { w1 with body := w1.body ++ data }

end ResponseWriter

/-- Go `fmt.Fprintln(w, s)`: the operand followed by a newline. -/
def Fprintln (w : ResponseWriter) (s : String) : ResponseWriter :=
  w.Write (s ++ "\n")

/-- Go `http.StatusText` on the codes the handlers use. -/
def StatusText (code : Nat) : String :=
  if code = 200 then "OK"
  else if code = 408 then "Request Timeout"
  else if code = 500 then "Internal Server Error"
  else if code = 503 then "Service Unavailable"
  else ""

def StatusOK : Nat := 200
def StatusRequestTimeout : Nat := 408
def StatusInternalServerError : Nat := 500
def StatusServiceUnavailable : Nat := 503
def StatusNotFound : Nat := 404
def StatusMethodNotAllowed : Nat := 405

/-- Go `http.Error(w, error, code)`: plain-text content type, the status, and
the message as one line. -/
def httpError (w : ResponseWriter) (error : String) (code : Nat) : ResponseWriter :=
  let w1 := w.headerDel "Content-Length"
  let w2 := w1.headerSet "Content-Type" "text/plain; charset=utf-8"
  let w3 := w2.headerSet "X-Content-Type-Options" "nosniff"
  let w4 := w3.WriteHeader code
  Fprintln w4 error

/-- Go `strings.Join(elems, sep)`. -/
def stringsJoin (elems : List String) (sep : String) : String :=
  sep.intercalate elems

/-! ## Errors (`error`, `errors`, `os`, `customerror`) -/

/-- Go error values that occur in the server: the sentinels
`context.DeadlineExceeded`, `os.ErrDeadlineExceeded`, `http.ErrServerClosed`,
any other error (with the answer of its `Timeout()` method, `false` when it
has none), and a `customerror.CustomError` with its message, its optional
status code and its optional wrapped error. -/
inductive GoError where
  | DeadlineExceeded
  | ErrDeadlineExceeded
  | ErrServerClosed
  | other (msg : String) (timeout : Bool)
  | custom (message : String) (statusCode : Option Nat) (err : Option GoError)
deriving Repr

namespace GoError

/-- Go `==` on error values, as `errors.Is` uses it; on the sentinels, which are
the targets `isTimeoutError` looks for, it is identity. -/
def same : GoError → GoError → Bool
  | .DeadlineExceeded, .DeadlineExceeded => true
  | .ErrDeadlineExceeded, .ErrDeadlineExceeded => true
  | .ErrServerClosed, .ErrServerClosed => true
  | .other m t, .other m2 t2 => m == m2 && t == t2
  | .custom m c (some e), .custom m2 c2 (some e2) => m == m2 && c == c2 && same e e2
  | .custom m c none, .custom m2 c2 none => m == m2 && c == c2
  | _, _ => false

/-- Go `Unwrap()`: only a `CustomError` wraps another error. -/
def Unwrap : GoError → Option GoError
  | .custom _ _ e => e
  | _ => none

/-- Go `errors.Is(err, target)` for a non-nil `err`: `err` or an error of its
`Unwrap` chain is `target`. -/
def is (target : GoError) : GoError → Bool
  | .custom m c (some e) => same (.custom m c (some e)) target || is target e
  | e => same e target

/-- Result of the `Timeout()` method, `false` when the error has none. -/
def Timeout : GoError → Bool
  | .DeadlineExceeded => true
  | .ErrDeadlineExceeded => true
  | .other _ t => t
  | _ => false

/-- Go `Error()`: the text of the error. -/
def Error : GoError → String
  | .DeadlineExceeded => "context deadline exceeded"
  | .ErrDeadlineExceeded => "i/o timeout"
  | .ErrServerClosed => "http: Server closed"
  | .other m _ => m
  | .custom m _ (some e) => m ++ ". Original Error: " ++ Error e
  | .custom m _ none => m

end GoError

/-- Go `errors.Is(err, target)`; `nil` is no error at all. -/
def errorsIs (err : Option GoError) (target : GoError) : Bool :=
  match err with
  | none => false
  | some e => GoError.is target e

/-- Go `os.IsTimeout(err)`. -/
def osIsTimeout (err : Option GoError) : Bool :=
  match err with
  | none => false
  | some e => e.Timeout

/-- Go `customerror.NewFailedToError(message, customerror.WithError(err))`. -/
def NewFailedToError (message : String) (statusCode : Option Nat) (err : Option GoError) :
    GoError :=
  .custom ("failed to " ++ message) statusCode err

/-- Go `customerror.NewInvalidError(message, customerror.WithError(err))`. -/
def NewInvalidError (message : String) (err : Option GoError) : GoError :=
  .custom ("invalid " ++ message) none err

/-! ## `os`: signals -/

/-- Go `os.Signal` values. -/
inductive Signal where
  | Interrupt
  | SIGTERM
  | Kill
  | other (n : Nat)
deriving DecidableEq, Repr

/-! ## `handler/readiness.go` -/

/-- Address of a `ReadinessDeterminer` (a Go `*ReadinessDeterminer`). -/
abbrev Ptr := Nat

/-- ReadinessDeterminer definition. It determines if `name` is ready. -/
structure ReadinessDeterminer where
  name : String
  ready : Bool
deriving DecidableEq, Repr

/-- Heap of determiners. -/
abbrev Heap := Ptr → ReadinessDeterminer

/-- Go `(*ReadinessDeterminer).SetName`. -/
def SetName (heap : Heap) (t : Ptr) (name : String) : Heap :=
  fun q => if q = t then { heap q with name := name } else heap q

/-- Go `(*ReadinessDeterminer).GetName`. -/
def GetName (heap : Heap) (t : Ptr) : String :=
  (heap t).name

/-- Go `(*ReadinessDeterminer).SetReadiness`. -/
def SetReadiness (heap : Heap) (t : Ptr) (v : Bool) : Heap :=
  fun q => if q = t then { heap q with ready := v } else heap q

/-- Go `(*ReadinessDeterminer).GetReadiness`. -/
def GetReadiness (heap : Heap) (t : Ptr) : Bool :=
  (heap t).ready

/-- Go `NewReadinessDeterminer`: allocates at the free address `t`. -/
def NewReadinessDeterminer (heap : Heap) (t : Ptr) (name : String) : Heap :=
  fun q => if q = t then { name := name, ready := false } else heap q

/-- Incoming request, as far as the handlers look at it. -/
structure Request where
  method : String
  path : String
  query : List (String × String)
deriving DecidableEq, Repr

/-- Metric definition (`metric/metric.go`); the value is read lazily. -/
structure Metric where
  Name : String
  Value : Unit → String

/-- Process state a handler runs against: the heap of determiners, the
metrics published so far, the answers of `os.FindProcess(os.Getpid())` and of
`p.Signal(sig)` (`none` is a nil error), and the signals the handlers have
passed to `p.Signal`, in order. -/
structure Proc where
  determiners : Heap
  vars : List Metric
  findProcess : Option GoError := none
  signal : Signal → Option GoError := fun _ => none
  signalCalls : List Signal := []

/-- Go `http.HandlerFunc`: runs against the process state and the writer. -/
abbrev HandlerFunc := Proc → Request → ResponseWriter → Proc × ResponseWriter

/-- Handler definition (`handler/handler.go`). -/
structure Handler where
  Handler : HandlerFunc
  Method : String
  Path : String

/-- Loop body of `Readiness`: one determiner against the two accumulators
`readinessStateFinalState` and `readinessesNames`. -/
def readinessStep (heap : Heap) (acc : Bool × List String) (readinessState : Ptr) :
    Bool × List String :=
  if !(GetReadiness heap readinessState) then
    (false, acc.2 ++ [GetName heap readinessState])
  else
    acc

/-- Go `Readiness(readinessStates...)`. -/
def Readiness (readinessStates : List Ptr) : Handler :=
  { Handler := fun proc _r w =>
      let acc := readinessStates.foldl (readinessStep proc.determiners) (true, [])
      let readinessStateFinalState := acc.1
      let readinessesNames := acc.2
      if !readinessStateFinalState then
        (proc, httpError w
          ("server isn't ready. " ++ stringsJoin readinessesNames ", " ++ " failed readiness")
          StatusServiceUnavailable)
      else
        let w1 := w.headerSet "Content-Type" "text/plain; charset=utf-8"
        let w2 := w1.WriteHeader StatusOK
        (proc, Fprintln w2 (StatusText StatusOK))
    Method := "GET"
    Path := "/readiness" }

/-- Response a client receives when the server runs handler `h` on a request. -/
def serve (h : Handler) (proc : Proc) (r : Request) : ResponseWriter :=
  (h.Handler proc r ResponseWriter.fresh).2

/-! ## `utils.go` -/

/-- Verifies is `err` is a timeout. -/
def isTimeoutError (err : Option GoError) : Bool :=
  if errorsIs err .DeadlineExceeded || errorsIs err .ErrDeadlineExceeded || osIsTimeout err then
    true
  else
    false

/-! ## `webserver.go`: constants and types -/

/-- Go `time.Duration`, in nanoseconds. -/
abbrev Duration := Int

/-- Go `time.Second`. -/
def Second : Duration := 1000000000

def defaultTimeout : Duration := 3 * Second
def defaultRequestTimeout : Duration := 1 * Second
def defaultShutdownTaskTimeout : Duration := 10 * Second
def frameworkName : String := "webserver"

/-- ErrRequesTimeout indicates a request failed to finish, it timed out. -/
def ErrRequesTimeout : GoError :=
  NewFailedToError "finish request, timed out" (some StatusRequestTimeout) none

/-- Levels of the logger (sypl `level.Level`). -/
inductive Level where
  | None | Fatal | Error | Info | Warn | Debug | Trace
deriving DecidableEq, Repr

/-- Go `level.None.String()`. -/
def Level.String : Level → String
  | .None => "none"
  | .Fatal => "fatal"
  | .Error => "error"
  | .Info => "info"
  | .Warn => "warn"
  | .Debug => "debug"
  | .Trace => "trace"

/-- Logger (sypl) as `logger.Setup` configures it. -/
structure Sypl where
  name : String
  consoleLevel : Level
  ioWriterLevel : Level
  fileOutput : Option String
  consoleDisabled : Bool
deriving DecidableEq, Repr

/-- Logging settings. -/
structure Logging where
  ConsoleLevel : String
  RequestLevel : String
  Filepath : String
deriving DecidableEq, Repr

/-- Timeout definition. -/
structure Timeout where
  ReadTimeout : Duration
  RequestTimeout : Duration
  ShutdownInFlightTimeout : Duration
  ShutdownTaskTimeout : Duration
  WriteTimeout : Duration
deriving DecidableEq, Repr

/-- Tracer of OpenTelemetry: the provider that made it and its name. -/
structure Tracer where
  provider : String
  name : String
deriving DecidableEq, Repr

/-- Telemetry definition (`telemetry/telemetry.go`). The `sync.Map` of tracers
holds values of type `any`: `some tracer` is a value that is a
`trace.Tracer`, `none` a value on which the type assertion fails. -/
structure Telemetry where
  Provider : String
  TextMapPropagator : List String
  tracers : List (String × Option Tracer)
deriving DecidableEq, Repr

/-- Go interface value `telemetry.ITelemetry`: `none` is the nil interface,
`some p` holds the pointer `p : *Telemetry`, itself `none` when nil. -/
abbrev ITelemetry := Option (Option Telemetry)

/-- Middleware installed on a router with `Use`. -/
inductive Middleware where
  | Logger (l : Sypl)
  | otelmux (service : String)
deriving DecidableEq, Repr

/-- Route registered with `router.HandleFunc(path, f).Methods(method)`. -/
structure Route where
  Path : String
  Method : String
  Handler : HandlerFunc

/-- Router (gorilla/mux): the path it is mounted under, its middlewares and
its routes, in registration order. -/
structure Router where
  base : String
  middlewares : List Middleware
  routes : List Route

/-- Go `mux.NewRouter()`. -/
def NewRouter : Router :=
  { base := "", middlewares := [], routes := [] }

/-- Go `router.Use(mw)`. -/
def Router.Use (router : Router) (mw : Middleware) : Router :=
  { router with middlewares := router.middlewares ++ [mw] }

/-- Go `http.TimeoutHandler(h, dt, msg)`. -/
structure TimeoutHandler where
  h : Router
  dt : Duration
  msg : String

/-- Go `http.Server`, the fields `Start` sets. -/
structure HTTPServer where
  Addr : String
  Handler : Option TimeoutHandler
  ReadTimeout : Duration
  WriteTimeout : Duration

/-- Server definition. -/
structure Server where
  Address : String
  EnableMetrics : Bool
  EnableTelemetry : Bool
  Name : String
  Logging : Logging
  Timeout : Timeout
  handlers : List Handler
  logger : Option Sypl
  metrics : List Metric
  readinessDeterminers : List Ptr
  router : Router
  server : HTTPServer
  telemetry : ITelemetry

/-- GetLogger returns the server logger. -/
def Server.GetLogger (s : Server) : Option Sypl := s.logger

/-- GetRouter returns the server base router. -/
def Server.GetRouter (s : Server) : Router := s.router

/-- GetTelemetry returns telemetry. -/
def Server.GetTelemetry (s : Server) : ITelemetry := s.telemetry

/-- Adds a `Handler` to a `Router`. -/
def addHandler (router : Router) (handlers : List Handler) : Router :=
  handlers.foldl
    (fun rt handler =>
      { rt with routes := rt.routes ++
          [{ Path := handler.Path, Method := handler.Method, Handler := handler.Handler }] })
    router

/-- Answers of gorilla/mux and of `strings`, which are outside the repository:

* `matchPath base tpl path` tells whether the path template `tpl`, registered
  with `HandleFunc` on a router mounted under `base`, matches the path of a
  request; a template may hold variables, `/{name}` matches any one segment;
* `ToUpper` is Go `strings.ToUpper`, which `Route.Methods` applies to the
  methods it is given. -/
structure Mux where
  matchPath : String → String → String → Bool
  ToUpper : String → String

/-- Whether the route serves the path of the request, by the matching of mux. -/
def Route.matchesPath (mux : Mux) (base : String) (rt : Route) (r : Request) : Bool :=
  mux.matchPath base rt.Path r.path

/-- Go `(*mux.Router).ServeHTTP` on a request whose path is clean: the first
route whose template matches the path and whose method, upper-cased at
registration, is the method of the request serves it; without one, the answer
is `405` when some route matches the path, and `http.NotFound` otherwise. -/
def Router.ServeHTTP (mux : Mux) (router : Router) : HandlerFunc :=
  fun proc r w =>
    match router.routes.find?
        (fun rt => rt.matchesPath mux router.base r && mux.ToUpper rt.Method == r.method) with
    | some rt => rt.Handler proc r w
    | none =>
      if router.routes.any (fun rt => rt.matchesPath mux router.base r) then
        (proc, w.WriteHeader StatusMethodNotAllowed)
      else
        (proc, httpError w "404 page not found" StatusNotFound)

/-- Route that `addHandler` registers for a handler. -/
def routeOf (handler : Handler) : Route :=
  { Path := handler.Path, Method := handler.Method, Handler := handler.Handler }

/-! ## `handler/metrics.go` -/

/-- Modelled from the spec: `metric.Handler` is not among the sources; the
spec has `/debug/vars` answer `200` with the JSON map from the name of each
published metric to its current value. -/
def metricHandler : HandlerFunc :=
  fun proc _r w =>
    let w1 := w.headerSet "Content-Type" "application/json; charset=utf-8"
    let entries := proc.vars.map (fun m => "\"" ++ m.Name ++ "\": " ++ m.Value ())
    (proc, w1.Write ("\x7b" ++ stringsJoin entries ", " ++ "\x7d"))

/-- Metrics serves metrics. -/
def Metrics : Handler :=
  { Handler := metricHandler
    Method := "GET"
    Path := "/debug/vars" }

/-! ## `options.go`

The Go type is `type Option func(s *Server)`; the name `Option` is taken in
Lean, hence `ServerOption`. An option is the function it is in Go. -/

/-- Option allows to define options for the Server. -/
abbrev ServerOption := Server → Server

/-- WithRouter sets the base router. -/
def WithRouter (router : Router) : ServerOption :=
  fun s => { s with router := router }

/-- WithTimeout sets the maximum duration for each individual timeouts. -/
def WithTimeout (read request inflight tasks write : Duration) : ServerOption :=
  fun s =>
    let t1 := { s.Timeout with ReadTimeout := read }
    let t2 := { t1 with RequestTimeout := request }
    let t3 := { t2 with ShutdownInFlightTimeout := inflight }
    let t4 := { t3 with ShutdownTaskTimeout := tasks }
    let t5 := { t4 with WriteTimeout := write }
    { s with Timeout := t5 }

/-- WithTelemetry sets telemetry; `t` is the pointer passed, `none` when nil. -/
def WithTelemetry (t : Option Telemetry) : ServerOption :=
  fun s =>
    let s1 := { s with EnableTelemetry := true }
    { s1 with telemetry := some t }

/-- WithMetrics sets the list of pre-loaded metrics. -/
def WithMetrics (metrics : List Metric) : ServerOption :=
  fun s =>
    let s1 := { s with EnableMetrics := true }
    { s1 with metrics := metrics }

/-- WithLogging sets logging configuration. -/
def WithLogging (console request filepath : String) : ServerOption :=
  fun s =>
    let l1 := { s.Logging with ConsoleLevel := console }
    let l2 := { l1 with RequestLevel := request }
    let l3 := { l2 with Filepath := filepath }
    { s with Logging := l3 }

/-- WithReadiness sets server readiness. -/
def WithReadiness (readinessDeterminers : List Ptr) : ServerOption :=
  fun s => { s with readinessDeterminers := readinessDeterminers }

/-- WithHandlers sets the list of pre-loaded handlers. -/
def WithHandlers (handlers : List Handler) : ServerOption :=
  fun s => { s with handlers := handlers }

/-! ## Collaborators outside the repository -/

/-- Answers of the libraries `New` calls into:

* `MustFromString` is sypl `level.MustFromString`, `none` when the call does
  not return (it aborts on a level it does not know);
* `stdoutNew` is the error of `stdout.New(stdout.WithPrettyPrint())`, the
  exporter behind `telemetry.StdoutProvider`;
* `hostnamePort` is the `hostname_port` rule of go-playground/validator. -/
structure Env where
  MustFromString : String → Option Level
  stdoutNew : Option GoError
  hostnamePort : String → Bool

/-! ## `internal/logger` -/

/-- Setup logger. `none` when a level conversion does not return. -/
def Setup (env : Env) (name logLevel requestLogLevel logFilePath : String) : Option Sypl :=
  match env.MustFromString logLevel with
  | none => none
  | some logLevelAsLevel =>
    match env.MustFromString requestLogLevel with
    | none => none
    | some requesLogLevelAsLevel =>
      let l : Sypl :=
        { name := name, consoleLevel := logLevelAsLevel, ioWriterLevel := .None,
          fileOutput := none, consoleDisabled := false }
      let l1 := { l with ioWriterLevel := requesLogLevelAsLevel }
      if logFilePath ≠ "" then
        let l2 := { l1 with fileOutput := some logFilePath }
        if logFilePath = "-" then
          some { l2 with consoleDisabled := true }
        else
          some l2
      else
        some l1

/-- Go `(*sypl.Sypl).New(name)`: a logger of the same set-up under a new name. -/
def Sypl.New (l : Sypl) (name : String) : Sypl :=
  { l with name := name }

/-! ## `telemetry/telemetry.go` -/

def globalTracerName : String := "global"

/-- Go `sync.Map.Store` on the map of tracers. -/
def tracersStore (tracers : List (String × Option Tracer)) (name : String)
    (tracer : Option Tracer) : List (String × Option Tracer) :=
  (tracers.filter (fun kv => kv.1 != name)) ++ [(name, tracer)]

/-- Go `sync.Map.Load` on the map of tracers: the value and `ok`. -/
def tracersLoad (tracers : List (String × Option Tracer)) (name : String) :
    Option (Option Tracer) :=
  match tracers.find? (fun kv => kv.1 == name) with
  | some kv => some kv.2
  | none => none

/-- New is Telemetry factory (`telemetry.New`). -/
def Telemetry.New (name : String) (provider : String) (textMapPropagators : List String) :
    Telemetry × Option GoError :=
  let telemetry : Telemetry :=
    { Provider := provider, TextMapPropagator := textMapPropagators, tracers := [] }
  let telemetry1 :=
    { telemetry with
      tracers := tracersStore telemetry.tracers globalTracerName
        (some { provider := "otel", name := name }) }
  (telemetry1, none)

/-- NewTracer creates a tracer from the current provider; `tracer` is what
`t.Provider.Tracer(name)` answers. -/
def Telemetry.NewTracer (t : Telemetry) (name : String) (tracer : Tracer) :
    Telemetry × Tracer :=
  ({ t with tracers := tracersStore t.tracers name (some tracer) }, tracer)

mutual

/-- GetTracer retrieves a tracer. If the retrieved tracer doesn't exist, the
global tracer is returned. Every call spends one unit of `fuel`; `none` is a
run that has used it up. -/
def Telemetry.GetTracer (fuel : Nat) (t : Telemetry) (name : String) : Option Tracer :=
  match fuel with
  | 0 => none
  | fuel + 1 =>
    match tracersLoad t.tracers name with
    | none => Telemetry.GetGlobalTracer fuel t
    | some tracerAny =>
      match tracerAny with
      | some tracer => some tracer
      | none => Telemetry.GetGlobalTracer fuel t

/-- GetGlobalTracer returns the global tracer. -/
def Telemetry.GetGlobalTracer (fuel : Nat) (t : Telemetry) : Option Tracer :=
  match fuel with
  | 0 => none
  | fuel + 1 => Telemetry.GetTracer fuel t globalTracerName

end

/-- StdoutProvider returns a telemetry which exports to `stdout`. -/
def StdoutProvider (env : Env) (name : String) : Except GoError Telemetry :=
  match env.stdoutNew with
  | some err => .error err
  | none => .ok (Telemetry.New name "stdout" ["TraceContext", "Baggage"]).1

/-! ## `internal/validation` and the `validate` tags of `webserver.go` -/

/-- Tags of a level field of `Logging`:
`required,gte=3,oneof=none fatal error info warn debug trace`. -/
def validLevelTag (v : String) : Bool :=
  v != "" && decide (3 ≤ v.length) &&
    ["none", "fatal", "error", "info", "warn", "debug", "trace"].contains v

/-- Tags of `Logging`; `Filepath` carries `omitempty,gte=3`. -/
def validLogging (l : Logging) : Bool :=
  validLevelTag l.ConsoleLevel && validLevelTag l.RequestLevel &&
    (l.Filepath == "" || decide (3 ≤ l.Filepath.length))

/-- Tags of `Timeout`: `RequestTimeout` carries `ltfield=ReadTimeout`. -/
def validTimeout (t : Timeout) : Bool :=
  decide (t.RequestTimeout < t.ReadTimeout)

/-- Tags of the exported fields of `Server`: `Address` carries
`required,hostname_port`, `Name` carries `required,gte=3`, the embedded
`Logging` and `Timeout` are required and validated in turn. The validator
does not visit the unexported fields. -/
def validServer (env : Env) (s : Server) : Bool :=
  (s.Address != "" && env.hostnamePort s.Address) &&
    (s.Name != "" && decide (3 ≤ s.Name.length)) &&
    validLogging s.Logging && validTimeout s.Timeout

/-- ValidateStruct allows DRY around the repetitive work of validating structs. -/
def ValidateStruct (env : Env) (f : Server) : Option GoError :=
  if validServer env f then none
  else some (NewInvalidError "data" (some (.other "validation failed" false)))

/-! ## `webserver.go`: `New` -/

/-- Outcome of `New`: `(s, nil)` together with the metrics it has published,
`(nil, err)`, or no return at all when the logger set-up aborts. -/
inductive NewResult where
  | ok (s : Server) (published : List Metric)
  | error (err : GoError)
  | fatal

/-- The `Server` literal at the head of `New`. -/
def newServer (name address : String) : Server :=
  { Address := address
    EnableMetrics := false
    EnableTelemetry := false
    Name := name
    Logging :=
      { ConsoleLevel := Level.None.String, RequestLevel := Level.None.String, Filepath := "" }
    Timeout :=
      { ReadTimeout := defaultTimeout
        RequestTimeout := defaultRequestTimeout
        ShutdownInFlightTimeout := defaultTimeout
        ShutdownTaskTimeout := defaultShutdownTaskTimeout
        WriteTimeout := defaultTimeout }
    handlers := []
    logger := none
    metrics := []
    readinessDeterminers := []
    router := NewRouter
    server := { Addr := "", Handler := none, ReadTimeout := 0, WriteTimeout := 0 }
    telemetry := none }

/-- Options processing: `for _, opt := range opts { opt(s) }`. -/
def applyOptions (opts : List ServerOption) (s : Server) : Server :=
  opts.foldl (fun acc opt => opt acc) s

/-- Telemetry section of `New`. -/
def newTelemetry (env : Env) (name : String) (s : Server) : Except GoError Server :=
  if s.EnableTelemetry then
    let r : Except GoError Server :=
      if s.GetTelemetry.isNone then
        match StdoutProvider env name with
        | .error err => .error err
        | .ok defaultTelemetry => .ok { s with telemetry := some (some defaultTelemetry) }
      else
        .ok s
    match r with
    | .error err => .error err
    | .ok s1 => .ok { s1 with router := s1.GetRouter.Use (.otelmux name) }
  else
    .ok s

/-- Handlers and metrics sections of `New`, after validation. -/
def newHandlers (s : Server) : Server × List Metric :=
  let s1 := { s with router := addHandler s.GetRouter s.handlers }
  let s2 :=
    if 0 < s1.readinessDeterminers.length then
      { s1 with router := addHandler s1.GetRouter [Readiness s1.readinessDeterminers] }
    else
      s1
  if s2.EnableMetrics then
    ({ s2 with router := addHandler s2.GetRouter [Metrics] }, s2.metrics)
  else
    (s2, [])

/-- New returns a basic web server. -/
def New (env : Env) (name address : String) (opts : List ServerOption) : NewResult :=
  let s := newServer name address
  let s1 := applyOptions opts s
  match Setup env frameworkName s1.Logging.ConsoleLevel s1.Logging.RequestLevel
      s1.Logging.Filepath with
  | none => .fatal
  | some l =>
    let s2 := { s1 with logger := some (l.New name) }
    let s3 := { s2 with router := s2.GetRouter.Use (.Logger (l.New name)) }
    match newTelemetry env name s3 with
    | .error err => .error err
    | .ok s4 =>
      match ValidateStruct env s4 with
      | some err => .error err
      | none =>
        let r := newHandlers s4
        .ok r.1 r.2

/-! ## `webserver.go`: `Start`

`Start` talks to the HTTP server, the signal package and the clock. The
embedding runs it against a `World` that fixes what these answer, and
returns the actions `Start` performs, in order, next to its result. -/

/-- Which channel the `select` of `Start` receives from first, and the value
received. -/
inductive First where
  | serverErr (err : Option GoError)
  | osSignal (sig : Signal)

/-- Answers of the world to one run of `Start`: what the `select` receives,
the results of `server.Shutdown(ctx)` and of `server.Close()`, and the value
`ListenAndServe` leaves on the channel once the listener is closed. -/
structure World where
  first : First
  Shutdown : Option GoError
  Close : Option GoError
  terminal : Option GoError

/-- Actions of `Start`. -/
inductive Event where
  | newHTTPServer (srv : HTTPServer)
  | goListenAndServe (addr : String)
  | signalNotify (sigs : List Signal)
  | selectBlock
  | recvServerErr (err : Option GoError)
  | recvSignal (sig : Signal)
  | log (format : String)
  | signalReset (sig : Signal)
  | contextWithTimeout (d : Duration)
  | SetKeepAlivesEnabled (v : Bool)
  | Shutdown (deadline : Duration) (result : Option GoError)
  | Close (result : Option GoError)
  | Sleep (d : Duration)
  | cancel

/-- Outcome of `Start`: the server with its `http.Server` set, the actions
performed and the error returned. -/
structure StartResult where
  server : Server
  trace : List Event
  err : Option GoError

/-- Start the server. -/
def Start (s : Server) (w : World) : StartResult :=
  let server : HTTPServer :=
    { Addr := s.Address
      Handler := some
        { h := s.GetRouter, dt := s.Timeout.RequestTimeout, msg := ErrRequesTimeout.Error }
      ReadTimeout := s.Timeout.ReadTimeout
      WriteTimeout := s.Timeout.WriteTimeout }
  let s1 := { s with server := server }
  let t0 : List Event :=
    [.newHTTPServer server, .goListenAndServe s1.server.Addr,
     .signalNotify [Signal.Interrupt, Signal.SIGTERM], .selectBlock]
  match w.first with
  | .serverErr err =>
    { server := s1, trace := t0 ++ [.recvServerErr err], err := err }
  | .osSignal sig =>
    let t1 := t0 ++
      [.recvSignal sig,
       .log "",
       .log "Got %s signal, gracefully shutting down",
       .log "Waiting %s for inflight requests to finish, %s",
       .signalReset sig,
       .contextWithTimeout s1.Timeout.ShutdownInFlightTimeout]
    let shutdownErr : Option GoError := none
    let t2 := t1 ++
      [.SetKeepAlivesEnabled false,
       .Shutdown s1.Timeout.ShutdownInFlightTimeout w.Shutdown]
    let r : Option GoError × List Event :=
      match w.Shutdown with
      | some err =>
        let shutdownErr1 : Option GoError :=
          if isTimeoutError shutdownErr then
            some (NewFailedToError "gracefully shutdown, timeout reached. Stopping hard..."
              none (some err))
          else
            some err
        match w.Close with
        | some err2 =>
          (some (NewFailedToError "hardly shutdown the server" none (some err2)),
            t2 ++ [.Close w.Close])
        | none => (shutdownErr1, t2 ++ [.Close w.Close])
      | none => (shutdownErr, t2)
    match r.1 with
    | some e => { server := s1, trace := r.2 ++ [.cancel], err := some e }
    | none =>
      { server := s1
        trace := r.2 ++
          [.log "Waiting %s for tasks, %s",
           .Sleep s1.Timeout.ShutdownTaskTimeout,
           .recvServerErr w.terminal,
           .cancel]
        err := w.terminal }

/-- Actions of the shutdown sequence: signal reset, keep-alive change,
`Shutdown` and its deadline, `Close` and the task-drain wait. -/
def Event.isShutdownStep : Event → Bool
  | .signalReset _ => true
  | .contextWithTimeout _ => true
  | .SetKeepAlivesEnabled _ => true
  | .Shutdown _ _ => true
  | .Close _ => true
  | .Sleep _ => true
  | _ => false

/-- Whether the action is a call of `server.Close()`. -/
def Event.isClose : Event → Bool
  | .Close _ => true
  | _ => false

/-- Whether the action is the task-drain wait `time.Sleep`. -/
def Event.isSleep : Event → Bool
  | .Sleep _ => true
  | _ => false

/-- Whether the action is a receive from the serving-error channel. -/
def Event.isRecvServerErr : Event → Bool
  | .recvServerErr _ => true
  | _ => false

/-- Whether the action is the construction of the `http.Server`. -/
def Event.isNewHTTPServer : Event → Bool
  | .newHTTPServer _ => true
  | _ => false

/-! ## Auxiliary definitions of the statements -/

/-- Names of the determiners of `ds` that are not ready, in the order of `ds`. -/
def failingNames (heap : Heap) (ds : List Ptr) : List String :=
  (ds.filter (fun d => !GetReadiness heap d)).map (GetName heap)

/-! ## `handler/liveness.go` -/

/-- Liveness indicates the server is up, and running. -/
def Liveness : Handler :=
  { Handler := fun proc _r w =>
      let w1 := w.headerSet "Content-Type" "text/plain; charset=utf-8"
      let w2 := w1.WriteHeader StatusOK
      (proc, Fprintln w2 (StatusText StatusOK))
    Method := "GET"
    Path := "/liveness" }

/-! ## `handler/stop.go` -/

/-- Go `url.Values.Get(key)`: the first value of the key, empty without one. -/
def queryGet (query : List (String × String)) (key : String) : String :=
  match query.find? (fun kv => kv.1 == key) with
  | some kv => kv.2
  | none => ""

/-- Stop allows the server to be remotely, and gracefully stopped. -/
def Stop : Handler :=
  { Handler := fun proc r w =>
      let queryParams := r.query
      let w1 := w.headerSet "Content-Type" "text/plain; charset=utf-8"
      let w2 := w1.WriteHeader StatusOK
      let w3 := Fprintln w2 (StatusText StatusOK)
      let sig : Signal := if queryGet queryParams "hard" = "true" then .Kill else .Interrupt
      match proc.findProcess with
      | some err => (proc, httpError w3 err.Error StatusInternalServerError)
      | none =>
        let proc1 := { proc with signalCalls := proc.signalCalls ++ [sig] }
        match proc.signal sig with
        | some err => (proc1, httpError w3 err.Error StatusInternalServerError)
        | none => (proc1, w3)
    Method := "GET"
    Path := "/stop" }

/-- Process state after the server has run handler `h` on a request. -/
def serveProc (h : Handler) (proc : Proc) (r : Request) : Proc :=
  (h.Handler proc r ResponseWriter.fresh).1

/-! ## Operations of a determiner, options as calls -/

/-- Operations of the type `ReadinessDeterminer` (`handler/readiness.go`). -/
inductive DeterminerOp where
  | SetName (t : Ptr) (name : String)
  | GetName (t : Ptr)
  | SetReadiness (t : Ptr) (v : Bool)
  | GetReadiness (t : Ptr)
deriving DecidableEq, Repr

/-- Heap after one operation. -/
def runDeterminerOp (heap : Heap) : DeterminerOp → Heap
  | .SetName t name => SetName heap t name
  | .GetName _ => heap
  | .SetReadiness t v => SetReadiness heap t v
  | .GetReadiness _ => heap

/-- Heap after a sequence of operations, first to last. -/
def runDeterminerOps (heap : Heap) (ops : List DeterminerOp) : Heap :=
  ops.foldl runDeterminerOp heap

/-- Argument of the operation when it is a `SetReadiness` on `t`. -/
def setReadinessArg (t : Ptr) : DeterminerOp → Option Bool
  | .SetReadiness t2 v => if t2 = t then some v else none
  | _ => none

/-- Argument of the operation when it is a `SetName` on `t`. -/
def setNameArg (t : Ptr) : DeterminerOp → Option String
  | .SetName t2 v => if t2 = t then some v else none
  | _ => none

/-- Argument of the most recent `SetReadiness` on `t` in `ops`, if any. -/
def lastSetReadiness (t : Ptr) : List DeterminerOp → Option Bool
  | [] => none
  | op :: ops =>
    match lastSetReadiness t ops with
    | some v => some v
    | none => setReadinessArg t op

/-- Argument of the most recent `SetName` on `t` in `ops`, if any. -/
def lastSetName (t : Ptr) : List DeterminerOp → Option String
  | [] => none
  | op :: ops =>
    match lastSetName t ops with
    | some v => some v
    | none => setNameArg t op

/-- Kinds of option of `options.go`. -/
inductive OptionKind where
  | Router | Timeout | Telemetry | Metrics | Logging | Readiness | Handlers
deriving DecidableEq, Repr

/-- Call of one of the option constructors of `options.go`, with its
arguments. -/
inductive OptionCall where
  | WithRouter (router : Router)
  | WithTimeout (read request inflight tasks write : Duration)
  | WithTelemetry (t : Option Telemetry)
  | WithMetrics (metrics : List Metric)
  | WithLogging (console request filepath : String)
  | WithReadiness (readinessDeterminers : List Ptr)
  | WithHandlers (handlers : List Handler)

/-- Kind of the option a call makes. -/
def optionKind : OptionCall → OptionKind
  | .WithRouter _ => .Router
  | .WithTimeout _ _ _ _ _ => .Timeout
  | .WithTelemetry _ => .Telemetry
  | .WithMetrics _ => .Metrics
  | .WithLogging _ _ _ => .Logging
  | .WithReadiness _ => .Readiness
  | .WithHandlers _ => .Handlers

/-- Option a call makes. -/
def optionOf : OptionCall → ServerOption
  | .WithRouter router => WithRouter router
  | .WithTimeout read request inflight tasks write =>
    WithTimeout read request inflight tasks write
  | .WithTelemetry t => WithTelemetry t
  | .WithMetrics metrics => WithMetrics metrics
  | .WithLogging console request filepath => WithLogging console request filepath
  | .WithReadiness readinessDeterminers => WithReadiness readinessDeterminers
  | .WithHandlers handlers => WithHandlers handlers

/-- Most recent tracer that a sequence of `NewTracer` calls, given with the
tracers the provider answered, has made under `name`. -/
def lastCreated (name : String) : List (String × Tracer) → Option Tracer
  | [] => none
  | c :: calls =>
    match lastCreated name calls with
    | some tracer => some tracer
    | none => if c.1 = name then some c.2 else none

/-- Telemetry after a sequence of `NewTracer` calls, first to last. -/
def runNewTracers (t : Telemetry) (calls : List (String × Tracer)) : Telemetry :=
  calls.foldl (fun acc c => (acc.NewTracer c.1 c.2).1) t

/-! ## The libraries as they answer in the examples

`net.SplitHostPort`, `strconv.ParseInt` and the `hostname_port` rule of
go-playground/validator v10, on the characters of the address; the level
names of sypl. The theorems on `New` hold for every `Env`; these definitions
give the collaborators of the concrete runs. -/

/-- Text before and after the last colon, `none` without a colon. -/
def splitLastColon (cs : List Char) : Option (List Char × List Char) :=
  let r := cs.reverse
  match r.dropWhile (fun c => c != ':') with
  | [] => none
  | _ :: hostRev => some (hostRev.reverse, (r.takeWhile (fun c => c != ':')).reverse)

/-- Go `net.SplitHostPort`: host and port, `none` for an error. -/
def SplitHostPort (hostport : String) : Option (List Char × List Char) :=
  let cs := hostport.data
  match splitLastColon cs with
  | none => none
  | some (before, port) =>
    match cs with
    | '[' :: tl =>
      match tl.dropWhile (fun c => c != ']') with
      | [] => none
      | _ :: after =>
        if after = ':' :: port then
          if tl.contains '[' then none
          else if after.contains ']' then none
          else some (tl.takeWhile (fun c => c != ']'), port)
        else none
    | _ =>
      if before.contains ':' then none
      else if cs.contains '[' then none
      else if cs.contains ']' then none
      else some (before, port)

/-- Go `strconv.ParseInt(port, 10, 32)` on the ports that are not negative:
an optional `+`, then decimal digits. A negative or unparsable port is
rejected by the rule either way. -/
def parsePort (port : List Char) : Option Nat :=
  let digits :=
    match port with
    | '+' :: ds => ds
    | ds => ds
  if digits.isEmpty then none
  else if digits.all Char.isDigit then
    some (digits.foldl (fun n c => 10 * n + (c.toNat - '0'.toNat)) 0)
  else none

/-- Pieces of a host between its dots. -/
def splitDots : List Char → List (List Char)
  | [] => [[]]
  | c :: cs =>
    match splitDots cs with
    | [] => [[]]
    | l :: ls => if c = '.' then [] :: l :: ls else (c :: l) :: ls

/-- One label of the RFC 1123 host name pattern of the validator:
`[a-zA-Z0-9]{1}[a-zA-Z0-9-]{0,62}`. -/
def validLabel : List Char → Bool
  | [] => false
  | c :: rest =>
    c.isAlphanum && decide (rest.length ≤ 62) &&
      rest.all (fun d => d.isAlphanum || d == '-')

/-- Rule `hostname_port` of the validator (`isHostnamePort`). -/
def isHostnamePort (val : String) : Bool :=
  match SplitHostPort val with
  | none => false
  | some (host, port) =>
    match parsePort port with
    | none => false
    | some portNum =>
      if portNum > 65535 || portNum < 1 then false
      else if !host.isEmpty then (splitDots host).all validLabel
      else true

/-- Level names of sypl; `level.MustFromString` does not return on another
string. -/
def levelMustFromString (v : String) : Option Level :=
  if v = "none" then some .None
  else if v = "fatal" then some .Fatal
  else if v = "error" then some .Error
  else if v = "info" then some .Info
  else if v = "warn" then some .Warn
  else if v = "debug" then some .Debug
  else if v = "trace" then some .Trace
  else none

/-- Kinds of option of `options.go` other than `WithTelemetry`. -/
def IsOptionWithoutTelemetry (o : ServerOption) : Prop :=
  (∃ router, o = WithRouter router) ∨
  (∃ read request inflight tasks write, o = WithTimeout read request inflight tasks write) ∨
  (∃ metrics, o = WithMetrics metrics) ∨
  (∃ console request filepath, o = WithLogging console request filepath) ∨
  (∃ readinessDeterminers, o = WithReadiness readinessDeterminers) ∨
  (∃ handlers, o = WithHandlers handlers)

/-- Value of a decimal text, as `parsePort` reads it. -/
def decimalValue (digits : List Char) : Nat :=
  digits.foldl (fun n c => 10 * n + (c.toNat - '0'.toNat)) 0

/-- Text `NNNN` of a port number: decimal digits whose value is between 1 and
65535, as `fmt.Sprintf("%d", port)` writes it. -/
def IsPortText (p : List Char) : Prop :=
  p ≠ [] ∧ (∀ c ∈ p, c.isDigit = true) ∧ 1 ≤ decimalValue p ∧ decimalValue p ≤ 65535

/-! ## Inputs of the examples -/

/-- Collaborators of the concrete runs of `New`: the exporter is built
without error. -/
def sampleEnv : Env :=
  { MustFromString := levelMustFromString
    stdoutNew := none
    hostnamePort := isHostnamePort }

/-- Heap of the scenario `db: true, cache: false`: `db` at address `0`,
`cache` at address `1`. -/
def scenarioHeap : Heap :=
  SetReadiness
    (NewReadinessDeterminer (NewReadinessDeterminer (fun _ => { name := "", ready := false })
      0 "db") 1 "cache")
    0 true

/-- Process of the scenario. -/
def scenarioProc : Proc :=
  { determiners := scenarioHeap, vars := [] }

/-- Request `GET /readiness`. -/
def getReadiness : Request :=
  { method := "GET", path := "/readiness", query := [] }

/-- Process of `ExampleNew`: the determiner `tunnel` at address `0`, not ready
yet. -/
def tunnelProc : Proc :=
  { determiners := NewReadinessDeterminer (fun _ => { name := "", ready := false }) 0 "tunnel"
    vars := [] }

/-- Server as `New` assembles it before any option, for the runs of `Start`. -/
def sampleServer : Server :=
  newServer "test-server" "0.0.0.0:8080"

/-- Run of `Start` in which `ListenAndServe` fails before any signal. -/
def worldPortInUse : World :=
  { first := .serverErr (some (.other "listen tcp 0.0.0.0:8080: bind: address already in use" false))
    Shutdown := none
    Close := none
    terminal := none }

/-- Run of `Start` in which an interrupt arrives and the drain finishes in
time. -/
def worldClean : World :=
  { first := .osSignal .Interrupt
    Shutdown := none
    Close := none
    terminal := some .ErrServerClosed }

/-- Run of `Start` in which an interrupt arrives, the drain exceeds its
deadline and the forced close succeeds. -/
def worldDrainTimeout : World :=
  { first := .osSignal .Interrupt
    Shutdown := some .DeadlineExceeded
    Close := none
    terminal := some .ErrServerClosed }

/-- Run of `Start` in which an interrupt arrives, the drain exceeds its
deadline and the forced close fails as well. -/
def worldCloseFails : World :=
  { first := .osSignal .Interrupt
    Shutdown := some .DeadlineExceeded
    Close := some (.other "close tcp 0.0.0.0:8080: use of closed network connection" false)
    terminal := some .ErrServerClosed }

/-- Heap in which `NewReadinessDeterminer("db")` has made a determiner at
address `0`. -/
def dbHeap : Heap :=
  NewReadinessDeterminer (fun _ => { name := "", ready := false }) 0 "db"

/-- Request `GET /stop`. -/
def getStop : Request :=
  { method := "GET", path := "/stop", query := [] }

/-- Request `GET /stop?hard=true`. -/
def getStopHard : Request :=
  { method := "GET", path := "/stop", query := [("hard", "true")] }

/-- Process in which sending a signal to the own process fails. -/
def signalFailsProc : Proc :=
  { determiners := fun _ => { name := "", ready := false }
    vars := []
    signal := fun _ => some (.other "os: process already finished" false) }

/-- Answers of mux on the routes of the examples, whose templates are literal
and whose router is mounted on a path without a trailing slash: a literal
template matches exactly its own path. -/
def literalMux : Mux :=
  { matchPath := fun base tpl path => base ++ tpl == path
    ToUpper := String.toUpper }

/-- Server configured as in `setupTestServer`: timeouts set by `WithTimeout`,
the liveness handler, listening on `0.0.0.0:3000`. -/
def configuredServer : Server :=
  applyOptions
    [WithHandlers [Liveness],
     WithTimeout (5 * Second) (2 * Second) (4 * Second) (10 * Second) (6 * Second)]
    (newServer "test-server" "0.0.0.0:3000")

/-! # Lemmas -/

theorem readiness_foldl (heap : Heap) (ds : List Ptr) (acc : Bool × List String) :
    ds.foldl (readinessStep heap) acc =
      (acc.1 && ds.all (fun d => GetReadiness heap d), acc.2 ++ failingNames heap ds) := by
  induction ds generalizing acc with
  | nil => simp [failingNames]
  | cons d ds ih =>
    rw [List.foldl_cons, ih]
    unfold readinessStep failingNames
    cases h : GetReadiness heap d <;> simp [h]

theorem serve_Readiness (ds : List Ptr) (proc : Proc) (r : Request) :
    serve (Readiness ds) proc r =
      if ds.all (fun d => GetReadiness proc.determiners d) then
        Fprintln ((ResponseWriter.fresh.headerSet "Content-Type"
          "text/plain; charset=utf-8").WriteHeader StatusOK) (StatusText StatusOK)
      else
        httpError ResponseWriter.fresh
          ("server isn't ready. " ++ stringsJoin (failingNames proc.determiners ds) ", "
            ++ " failed readiness")
          StatusServiceUnavailable := by
  unfold serve Readiness
  simp only [readiness_foldl, Bool.true_and, List.nil_append]
  cases h : ds.all (fun d => GetReadiness proc.determiners d) <;> simp

theorem status_ok_branch :
    (Fprintln ((ResponseWriter.fresh.headerSet "Content-Type"
      "text/plain; charset=utf-8").WriteHeader StatusOK) (StatusText StatusOK)).status = 200 := by
  rfl

theorem status_httpError_fresh (msg : String) (code : Nat) :
    (httpError ResponseWriter.fresh msg code).status = code := by
  rfl

theorem body_httpError_fresh (msg : String) (code : Nat) :
    (httpError ResponseWriter.fresh msg code).body = "" ++ (msg ++ "\n") := by
  rfl

theorem status_serve_Readiness (ds : List Ptr) (proc : Proc) (r : Request) :
    (serve (Readiness ds) proc r).status =
      if ds.all (fun d => GetReadiness proc.determiners d) then 200 else 503 := by
  rw [serve_Readiness]
  cases h : ds.all (fun d => GetReadiness proc.determiners d)
  · simp only [Bool.false_eq_true, if_false]
    exact status_httpError_fresh _ _
  · simp only [if_true]
    exact status_ok_branch

theorem GetReadiness_SetReadiness (heap : Heap) (t : Ptr) (v : Bool) (d : Ptr) :
    GetReadiness (SetReadiness heap t v) d = if d = t then v else GetReadiness heap d := by
  unfold GetReadiness SetReadiness
  by_cases h : d = t <;> simp [h]

theorem mem_failingNames (heap : Heap) (ds : List Ptr) (n : String) :
    n ∈ failingNames heap ds ↔
      ∃ d ∈ ds, GetReadiness heap d = false ∧ GetName heap d = n := by
  unfold failingNames
  simp only [List.mem_map, List.mem_filter, Bool.not_eq_true', and_assoc]

/-! # Readiness aggregation (C1, C2) -/

/-- C1: for every list of determiners `ds` (the empty list included) and every
state of the flags, the handler built by `Readiness ds` answers `200` exactly
when every determiner of `ds` is ready at the moment of the call, and `503`
otherwise; the answer is computed from the flags at each call, so that after
`SetReadiness t v` the next call answers `200` exactly when every determiner
of `ds` is ready with the flag of `t` replaced by `v`. -/
theorem Readiness_status_iff_all_ready (ds : List Ptr) (proc : Proc) (r : Request) :
    ((serve (Readiness ds) proc r).status = 200 ↔
        ∀ d ∈ ds, GetReadiness proc.determiners d = true) ∧
    ((¬ ∀ d ∈ ds, GetReadiness proc.determiners d = true) →
        (serve (Readiness ds) proc r).status = 503) ∧
    (serve (Readiness []) proc r).status = 200 ∧
    (∀ (t : Ptr) (v : Bool) (r2 : Request),
        ((serve (Readiness ds)
            { proc with determiners := SetReadiness proc.determiners t v } r2).status = 200 ↔
          ∀ d ∈ ds, (if d = t then v else GetReadiness proc.determiners d) = true) ∧
        ((¬ ∀ d ∈ ds, (if d = t then v else GetReadiness proc.determiners d) = true) →
          (serve (Readiness ds)
            { proc with determiners := SetReadiness proc.determiners t v } r2).status = 503)) := by
  have key : ∀ (p : Proc) (q : Request),
      ((serve (Readiness ds) p q).status = 200 ↔
          ∀ d ∈ ds, GetReadiness p.determiners d = true) ∧
      ((¬ ∀ d ∈ ds, GetReadiness p.determiners d = true) →
          (serve (Readiness ds) p q).status = 503) := by
    intro p q
    rw [status_serve_Readiness]
    by_cases hall : ∀ d ∈ ds, GetReadiness p.determiners d = true
    · have hb : ds.all (fun d => GetReadiness p.determiners d) = true :=
        List.all_eq_true.mpr hall
      rw [hb, if_pos rfl]
      exact ⟨⟨fun _ => hall, fun _ => rfl⟩, fun hn => absurd hall hn⟩
    · have hb : ds.all (fun d => GetReadiness p.determiners d) = false := by
        rw [Bool.eq_false_iff]
        intro hc
        exact hall (List.all_eq_true.mp hc)
      rw [hb, if_neg Bool.false_ne_true]
      exact ⟨⟨fun h503 => absurd h503 (by decide), fun h => absurd h hall⟩, fun _ => rfl⟩
  refine ⟨(key proc r).1, (key proc r).2, ?_, ?_⟩
  · rw [status_serve_Readiness]
    rfl
  · intro t v r2
    have h2 := key { proc with determiners := SetReadiness proc.determiners t v } r2
    simp only [GetReadiness_SetReadiness] at h2
    exact h2

theorem Readiness_status_iff_all_ready_witness :
    (¬ ∀ d ∈ [0], GetReadiness tunnelProc.determiners d = true) ∧
    (serve (Readiness [0]) tunnelProc getReadiness).status = 503 ∧
    (serve (Readiness [0])
      { tunnelProc with determiners := SetReadiness tunnelProc.determiners 0 true }
      getReadiness).status = 200 :=
  ⟨by decide,
   (Readiness_status_iff_all_ready [0] tunnelProc getReadiness).2.1 (by decide),
   ((Readiness_status_iff_all_ready [0] tunnelProc getReadiness).2.2.2 0 true getReadiness).1.mpr
     (by decide)⟩

/-- C2: when at least one determiner of `ds` is not ready, the response of the
handler built by `Readiness ds` is the one `http.Error` writes for the status
`503` and the message `server isn't ready. <names> failed readiness`: the
body is that message (as a line, `http.Error` ends it with a newline), where
`<names>` joins with `, ` the names of exactly the determiners that are not
ready, in the order of `ds`; a name is listed exactly when it is the name of a
determiner of `ds` that is not ready. -/
theorem Readiness_body_lists_failing (ds : List Ptr) (proc : Proc) (r : Request)
    (h : ∃ d ∈ ds, GetReadiness proc.determiners d = false) :
    serve (Readiness ds) proc r =
      httpError ResponseWriter.fresh
        ("server isn't ready. " ++
          ", ".intercalate
            ((ds.filter (fun d => !GetReadiness proc.determiners d)).map
              (GetName proc.determiners)) ++
          " failed readiness")
        StatusServiceUnavailable ∧
    (serve (Readiness ds) proc r).status = 503 ∧
    (serve (Readiness ds) proc r).body =
      "server isn't ready. " ++
        ", ".intercalate
          ((ds.filter (fun d => !GetReadiness proc.determiners d)).map
            (GetName proc.determiners)) ++
        " failed readiness" ++ "\n" ∧
    (∀ n : String,
      n ∈ (ds.filter (fun d => !GetReadiness proc.determiners d)).map
            (GetName proc.determiners) ↔
        ∃ d ∈ ds, GetReadiness proc.determiners d = false ∧
          GetName proc.determiners d = n) := by
  have hall : ds.all (fun d => GetReadiness proc.determiners d) = false := by
    obtain ⟨d, hd, hr⟩ := h
    cases hc : ds.all (fun d => GetReadiness proc.determiners d)
    · rfl
    · have := List.all_eq_true.mp hc d hd
      rw [hr] at this
      exact absurd this Bool.false_ne_true
  refine ⟨?_, ?_, ?_, ?_⟩
  · rw [serve_Readiness, hall]
    simp only [Bool.false_eq_true, if_false]
    rfl
  · rw [status_serve_Readiness, hall]
    rfl
  · rw [serve_Readiness, hall]
    simp only [Bool.false_eq_true, if_false]
    rw [body_httpError_fresh]
    unfold stringsJoin failingNames
    simp [String.append_assoc]
  · intro n
    exact mem_failingNames proc.determiners ds n

theorem Readiness_body_lists_failing_witness :
    (∃ d ∈ [0, 1], GetReadiness scenarioProc.determiners d = false) ∧
    (serve (Readiness [0, 1]) scenarioProc getReadiness =
      httpError ResponseWriter.fresh "server isn't ready. cache failed readiness"
        StatusServiceUnavailable ∧
     (serve (Readiness [0, 1]) scenarioProc getReadiness).status = 503 ∧
     (serve (Readiness [0, 1]) scenarioProc getReadiness).body =
      "server isn't ready. cache failed readiness\n" ∧
     (∀ n : String,
      n ∈ ["cache"] ↔
        ∃ d ∈ [0, 1], GetReadiness scenarioProc.determiners d = false ∧
          GetName scenarioProc.determiners d = n)) :=
  ⟨⟨1, by decide, by decide⟩,
   Readiness_body_lists_failing [0, 1] scenarioProc getReadiness ⟨1, by decide, by decide⟩⟩

/-! # Lifecycle of `Start` (C3 to C8) -/

/-- C3: when a serving error arrives on the serving-error channel before any
signal, `Start` returns exactly that error right after receiving it, and
performs none of the shutdown steps: no signal reset, no keep-alive change,
no `Shutdown`, no `Close`, no task-drain wait. -/
theorem Start_serving_error_returns_it (s : Server) (w : World) (err : Option GoError)
    (h : w.first = .serverErr err) :
    (Start s w).err = err ∧
    (∃ pre, (Start s w).trace = pre ++ [.selectBlock, .recvServerErr err]) ∧
    (Start s w).trace.all (fun e => !e.isShutdownStep) = true := by
  unfold Start
  simp only [h]
  refine ⟨trivial, ⟨[_, _, _], rfl⟩, ?_⟩
  simp [Event.isShutdownStep]

theorem Start_serving_error_returns_it_witness :
    worldPortInUse.first = .serverErr
        (some (.other "listen tcp 0.0.0.0:8080: bind: address already in use" false)) ∧
    ((Start sampleServer worldPortInUse).err =
        some (.other "listen tcp 0.0.0.0:8080: bind: address already in use" false) ∧
     (∃ pre, (Start sampleServer worldPortInUse).trace = pre ++
        [.selectBlock, .recvServerErr
          (some (.other "listen tcp 0.0.0.0:8080: bind: address already in use" false))]) ∧
     (Start sampleServer worldPortInUse).trace.all (fun e => !e.isShutdownStep) = true) :=
  ⟨rfl, Start_serving_error_returns_it sampleServer worldPortInUse _ rfl⟩

/-- C4: on the signal path of `Start`, `server.Close` is called exactly when
the graceful `Shutdown` returned an error, of whatever kind; `Start` (a total
function of the run) then returns, and what it returns is a non-nil error. -/
theorem Start_close_iff_shutdown_failed (s : Server) (w : World) (sig : Signal)
    (h : w.first = .osSignal sig) :
    ((Start s w).trace.any Event.isClose = true ↔ w.Shutdown ≠ none) ∧
    (w.Shutdown ≠ none → (Start s w).err ≠ none) := by
  unfold Start
  simp only [h]
  cases hs : w.Shutdown with
  | none =>
    simp [Event.isClose]
  | some e =>
    cases hc : w.Close with
    | none => simp [Event.isClose, isTimeoutError, errorsIs, osIsTimeout]
    | some c => simp [Event.isClose]

theorem Start_close_iff_shutdown_failed_witness :
    worldDrainTimeout.first = .osSignal .Interrupt ∧
    (((Start sampleServer worldDrainTimeout).trace.any Event.isClose = true ↔
        worldDrainTimeout.Shutdown ≠ none) ∧
     (worldDrainTimeout.Shutdown ≠ none → (Start sampleServer worldDrainTimeout).err ≠ none)) :=
  ⟨rfl, Start_close_iff_shutdown_failed sampleServer worldDrainTimeout .Interrupt rfl⟩

/-- C5 (the code departs from the claim): on the signal path, when `Shutdown`
returns the deadline-exceeded error and `Close` succeeds, `Start` tests
`isTimeoutError` on `shutdownErr`, which is still nil, instead of on the
error of `Shutdown`; the test is false and `Start` returns the raw error of
`Shutdown`, although `isTimeoutError` holds of that error. -/
theorem Start_drain_timeout_returns_raw :
    isTimeoutError worldDrainTimeout.Shutdown = true ∧
    isTimeoutError none = false ∧
    (Start sampleServer worldDrainTimeout).err = some .DeadlineExceeded ∧
    (Start sampleServer worldDrainTimeout).err ≠
      some (NewFailedToError "gracefully shutdown, timeout reached. Stopping hard..." none
        (some .DeadlineExceeded)) := by
  refine ⟨by decide, by decide, rfl, ?_⟩
  intro hc
  have h2 : (Start sampleServer worldDrainTimeout).err = some .DeadlineExceeded := rfl
  rw [h2] at hc
  simp [NewFailedToError] at hc

/-- C6 (the claim fails): with `Shutdown` failing on its deadline and `Close`
failing too, the deadline error is not in the cause chain of the error
`Start` returns. -/
theorem Start_close_failure_drops_shutdown_error :
    worldCloseFails.first = .osSignal .Interrupt ∧
    worldCloseFails.Shutdown = some .DeadlineExceeded ∧
    worldCloseFails.Close ≠ none ∧
    errorsIs (Start sampleServer worldCloseFails).err .DeadlineExceeded = false := by
  refine ⟨rfl, rfl, by simp [worldCloseFails], by decide⟩

/-- C6 (amended): on the signal path, when `Shutdown` fails and `Close`
returns the error `c`, `Start` returns the error
`failed to hardly shutdown the server` that wraps `c`: the forced-close failure
is recorded with the error of `Close` as its cause, in place of the error of
`Shutdown`. -/
theorem Start_close_failure_wraps_close_error (s : Server) (w : World) (sig : Signal)
    (e c : GoError) (h : w.first = .osSignal sig) (hs : w.Shutdown = some e)
    (hc : w.Close = some c) :
    (Start s w).err = some (.custom "failed to hardly shutdown the server" none (some c)) ∧
    (∀ r, (Start s w).err = some r → r.Unwrap = some c) := by
  have h1 : (Start s w).err =
      some (.custom "failed to hardly shutdown the server" none (some c)) := by
    unfold Start
    simp only [h, hs, hc]
    rfl
  refine ⟨h1, ?_⟩
  intro r hr
  rw [h1] at hr
  cases hr
  rfl

theorem Start_close_failure_wraps_close_error_witness :
    (worldCloseFails.first = .osSignal .Interrupt ∧
     worldCloseFails.Shutdown = some .DeadlineExceeded ∧
     worldCloseFails.Close =
      some (.other "close tcp 0.0.0.0:8080: use of closed network connection" false)) ∧
    ((Start sampleServer worldCloseFails).err =
      some (.custom "failed to hardly shutdown the server" none
        (some (.other "close tcp 0.0.0.0:8080: use of closed network connection" false))) ∧
     (∀ r, (Start sampleServer worldCloseFails).err = some r → r.Unwrap =
        some (.other "close tcp 0.0.0.0:8080: use of closed network connection" false))) :=
  ⟨⟨rfl, rfl, rfl⟩,
   Start_close_failure_wraps_close_error sampleServer worldCloseFails .Interrupt _ _ rfl rfl rfl⟩

/-- C7: on the signal path, when the graceful `Shutdown` returns no error,
`Start` sleeps for `ShutdownTaskTimeout`, then receives from the serving-error
channel and returns exactly the value received; `Close` is not called. -/
theorem Start_clean_shutdown_waits_then_returns (s : Server) (w : World) (sig : Signal)
    (h : w.first = .osSignal sig) (hs : w.Shutdown = none) :
    (Start s w).err = w.terminal ∧
    (∃ pre, (Start s w).trace = pre ++
      [.Shutdown s.Timeout.ShutdownInFlightTimeout none,
       .log "Waiting %s for tasks, %s",
       .Sleep s.Timeout.ShutdownTaskTimeout,
       .recvServerErr w.terminal,
       .cancel]) ∧
    (Start s w).trace.any Event.isClose = false := by
  unfold Start
  simp only [h, hs]
  refine ⟨trivial, ⟨[_, _, _, _, _, _, _, _, _, _, _], rfl⟩, ?_⟩
  simp [Event.isClose]

theorem Start_clean_shutdown_waits_then_returns_witness :
    (worldClean.first = .osSignal .Interrupt ∧ worldClean.Shutdown = none) ∧
    ((Start sampleServer worldClean).err = some .ErrServerClosed ∧
     (∃ pre, (Start sampleServer worldClean).trace = pre ++
      [.Shutdown (3 * Second) none,
       .log "Waiting %s for tasks, %s",
       .Sleep (10 * Second),
       .recvServerErr (some .ErrServerClosed),
       .cancel]) ∧
     (Start sampleServer worldClean).trace.any Event.isClose = false) :=
  ⟨⟨rfl, rfl⟩, Start_clean_shutdown_waits_then_returns sampleServer worldClean .Interrupt rfl rfl⟩

/-- C8: `Start` spawns the serving goroutine and subscribes to the interrupt
and terminate signals before it blocks in the `select`; when a signal `sig`
is received, it resets the handling of exactly `sig`, and drains after that:
it disables keep-alives and then calls `Shutdown` under a context whose
timeout is `ShutdownInFlightTimeout`, in that order. No other signal is ever
reset. -/
theorem Start_setup_then_reset_then_drain (s : Server) (w : World) :
    (∃ rest, (Start s w).trace =
      [.newHTTPServer (Start s w).server.server,
       .goListenAndServe s.Address,
       .signalNotify [Signal.Interrupt, Signal.SIGTERM],
       .selectBlock] ++ rest) ∧
    (∀ sig, w.first = .osSignal sig →
      (∃ rest, (Start s w).trace =
        [.newHTTPServer (Start s w).server.server,
         .goListenAndServe s.Address,
         .signalNotify [Signal.Interrupt, Signal.SIGTERM],
         .selectBlock,
         .recvSignal sig,
         .log "",
         .log "Got %s signal, gracefully shutting down",
         .log "Waiting %s for inflight requests to finish, %s",
         .signalReset sig,
         .contextWithTimeout s.Timeout.ShutdownInFlightTimeout,
         .SetKeepAlivesEnabled false,
         .Shutdown s.Timeout.ShutdownInFlightTimeout w.Shutdown] ++ rest) ∧
      (∀ sig2, Event.signalReset sig2 ∈ (Start s w).trace → sig2 = sig)) := by
  constructor
  · unfold Start
    cases hf : w.first with
    | serverErr err => exact ⟨_, rfl⟩
    | osSignal sig =>
      cases hs : w.Shutdown with
      | none => exact ⟨_, rfl⟩
      | some e =>
        cases hc : w.Close with
        | none => exact ⟨_, rfl⟩
        | some c => exact ⟨_, rfl⟩
  · intro sig hf
    unfold Start
    simp only [hf]
    cases hs : w.Shutdown with
    | none =>
      refine ⟨⟨_, rfl⟩, ?_⟩
      intro sig2 hm
      simpa using hm
    | some e =>
      cases hc : w.Close with
      | none =>
        refine ⟨⟨_, rfl⟩, ?_⟩
        intro sig2 hm
        simpa [isTimeoutError, errorsIs, osIsTimeout] using hm
      | some c =>
        refine ⟨⟨_, rfl⟩, ?_⟩
        intro sig2 hm
        simpa using hm

theorem Start_setup_then_reset_then_drain_witness :
    worldClean.first = .osSignal .Interrupt ∧
    ((∃ rest, (Start sampleServer worldClean).trace =
        [.newHTTPServer (Start sampleServer worldClean).server.server,
         .goListenAndServe sampleServer.Address,
         .signalNotify [Signal.Interrupt, Signal.SIGTERM],
         .selectBlock,
         .recvSignal .Interrupt,
         .log "",
         .log "Got %s signal, gracefully shutting down",
         .log "Waiting %s for inflight requests to finish, %s",
         .signalReset .Interrupt,
         .contextWithTimeout sampleServer.Timeout.ShutdownInFlightTimeout,
         .SetKeepAlivesEnabled false,
         .Shutdown sampleServer.Timeout.ShutdownInFlightTimeout worldClean.Shutdown] ++ rest) ∧
      (∀ sig2, Event.signalReset sig2 ∈ (Start sampleServer worldClean).trace →
        sig2 = .Interrupt)) :=
  ⟨rfl, (Start_setup_then_reset_then_drain sampleServer worldClean).2 .Interrupt rfl⟩

/-! # Assembly in `New` (C9, C10) -/

theorem newTelemetry_ok_fields (env : Env) (name : String) (s s4 : Server)
    (h : newTelemetry env name s = .ok s4) :
    s4.Timeout = s.Timeout ∧ s4.EnableMetrics = s.EnableMetrics ∧
    s4.EnableTelemetry = s.EnableTelemetry ∧ s4.handlers = s.handlers ∧
    s4.metrics = s.metrics ∧ s4.readinessDeterminers = s.readinessDeterminers ∧
    (s.EnableTelemetry = false → s4.telemetry = s.telemetry) := by
  unfold newTelemetry at h
  cases he : s.EnableTelemetry with
  | false =>
    simp only [he, Bool.false_eq_true, if_false] at h
    cases h
    simp [he]
  | true =>
    simp only [he, if_true] at h
    cases ht : s.GetTelemetry.isNone with
    | false =>
      simp only [ht, Bool.false_eq_true, if_false] at h
      cases h
      simp [he]
    | true =>
      simp only [ht, if_true] at h
      cases hp : StdoutProvider env name with
      | error e => simp [hp] at h
      | ok t =>
        simp only [hp] at h
        cases h
        simp [he]

theorem newHandlers_fields (s : Server) :
    (newHandlers s).1.Timeout = s.Timeout ∧ (newHandlers s).1.EnableMetrics = s.EnableMetrics ∧
    (newHandlers s).1.EnableTelemetry = s.EnableTelemetry ∧
    (newHandlers s).1.handlers = s.handlers ∧ (newHandlers s).1.metrics = s.metrics ∧
    (newHandlers s).1.readinessDeterminers = s.readinessDeterminers ∧
    (newHandlers s).1.telemetry = s.telemetry ∧
    (newHandlers s).2 = (if s.EnableMetrics then s.metrics else []) := by
  unfold newHandlers
  by_cases hr : 0 < s.readinessDeterminers.length <;>
    cases hm : s.EnableMetrics <;> simp [hr, hm]

theorem New_ok_inv (env : Env) (name address : String) (opts : List ServerOption)
    (s : Server) (pub : List Metric) (h : New env name address opts = .ok s pub) :
    ∃ l s4,
      Setup env frameworkName (applyOptions opts (newServer name address)).Logging.ConsoleLevel
        (applyOptions opts (newServer name address)).Logging.RequestLevel
        (applyOptions opts (newServer name address)).Logging.Filepath = some l ∧
      newTelemetry env name
        { applyOptions opts (newServer name address) with
          logger := some (l.New name)
          router := (applyOptions opts (newServer name address)).router.Use
            (.Logger (l.New name)) } = .ok s4 ∧
      validServer env s4 = true ∧ s = (newHandlers s4).1 ∧ pub = (newHandlers s4).2 := by
  unfold New at h
  simp only at h
  cases hl : Setup env frameworkName (applyOptions opts (newServer name address)).Logging.ConsoleLevel
        (applyOptions opts (newServer name address)).Logging.RequestLevel
        (applyOptions opts (newServer name address)).Logging.Filepath with
  | none => simp [hl] at h
  | some l =>
    simp only [hl] at h
    cases ht : newTelemetry env name
        { applyOptions opts (newServer name address) with
          logger := some (l.New name)
          router := (applyOptions opts (newServer name address)).router.Use
            (.Logger (l.New name)) } with
    | error e =>
      simp only [Server.GetRouter] at h
      rw [ht] at h
      simp at h
    | ok s4 =>
      simp only [Server.GetRouter] at h
      rw [ht] at h
      simp only at h
      unfold ValidateStruct at h
      cases hv : validServer env s4 with
      | false => simp [hv] at h
      | true =>
        simp only [hv, if_true] at h
        cases h
        exact ⟨l, s4, rfl, ht, hv, rfl, rfl⟩

theorem Setup_isSome (env : Env) (name a b f : String)
    (ha : (env.MustFromString a).isSome = true) (hb : (env.MustFromString b).isSome = true) :
    ∃ l, Setup env name a b f = some l := by
  unfold Setup
  cases h1 : env.MustFromString a with
  | none => simp [h1] at ha
  | some x =>
    cases h2 : env.MustFromString b with
    | none => simp [h2] at hb
    | some y =>
      simp only
      by_cases hf : f ≠ "" <;> by_cases hd : f = "-" <;> simp [hf, hd]

theorem applyOptions_without_telemetry (opts : List ServerOption)
    (h : ∀ o ∈ opts, IsOptionWithoutTelemetry o) (s : Server) :
    (applyOptions opts s).telemetry = s.telemetry ∧
    (applyOptions opts s).EnableTelemetry = s.EnableTelemetry := by
  induction opts generalizing s with
  | nil => exact ⟨rfl, rfl⟩
  | cons o opts ih =>
    have ho := h o (List.mem_cons_self _ _)
    have ih2 := ih (fun o2 h2 => h o2 (List.mem_cons_of_mem _ h2)) (o s)
    have hstep : (o s).telemetry = s.telemetry ∧ (o s).EnableTelemetry = s.EnableTelemetry := by
      rcases ho with ⟨r, rfl⟩ | ⟨a, b, c, d, e, rfl⟩ | ⟨m, rfl⟩ | ⟨a, b, c, rfl⟩ | ⟨r, rfl⟩ |
        ⟨hs, rfl⟩ <;> exact ⟨rfl, rfl⟩
    show (applyOptions opts (o s)).telemetry = s.telemetry ∧
      (applyOptions opts (o s)).EnableTelemetry = s.EnableTelemetry
    rw [ih2.1, ih2.2]
    exact hstep

theorem New_eq_of_setup (env : Env) (name address : String) (opts : List ServerOption)
    (l : Sypl)
    (hl : Setup env frameworkName (applyOptions opts (newServer name address)).Logging.ConsoleLevel
        (applyOptions opts (newServer name address)).Logging.RequestLevel
        (applyOptions opts (newServer name address)).Logging.Filepath = some l) :
    New env name address opts =
      match newTelemetry env name
        { applyOptions opts (newServer name address) with
          logger := some (l.New name)
          router := (applyOptions opts (newServer name address)).router.Use
            (.Logger (l.New name)) } with
      | .error err => .error err
      | .ok s4 =>
        if validServer env s4 then .ok (newHandlers s4).1 (newHandlers s4).2
        else .error (NewInvalidError "data" (some (.other "validation failed" false))) := by
  unfold New
  simp only [hl, Server.GetRouter]
  cases ht : newTelemetry env name
        { applyOptions opts (newServer name address) with
          logger := some (l.New name)
          router := (applyOptions opts (newServer name address)).router.Use
            (.Logger (l.New name)) } with
  | error e => rfl
  | ok s4 =>
    simp only
    unfold ValidateStruct
    cases hv : validServer env s4 <;> simp

theorem New_ok_timeout_lt (env : Env) (name address : String)
    (opts : List ServerOption) (s : Server) (pub : List Metric)
    (h : New env name address opts = .ok s pub) :
    s.Timeout = (applyOptions opts (newServer name address)).Timeout ∧
    s.Timeout.RequestTimeout < s.Timeout.ReadTimeout := by
  obtain ⟨l, s4, _, hT, hv, hs, _⟩ := New_ok_inv env name address opts s pub h
  have hf := (newTelemetry_ok_fields env name _ s4 hT).1
  have hs4 : s.Timeout = s4.Timeout := by rw [hs]; exact (newHandlers_fields s4).1
  have hlt : s4.Timeout.RequestTimeout < s4.Timeout.ReadTimeout := by
    unfold validServer validTimeout at hv
    simp only [Bool.and_eq_true, decide_eq_true_eq] at hv
    exact hv.2
  refine ⟨by rw [hs4, hf], ?_⟩
  rw [hs4]
  exact hlt

/-- C9 (the code departs from the claim): `New` sets the logger up before it
validates. With `WithLogging("verbose", "none", "")` and
`RequestTimeout = ReadTimeout`, the logger set-up does not return on the
unknown level, so `New` returns neither an error nor a server, although the
tags of the level fields list `verbose` as invalid. With the same timeouts and
the default levels the validation is reached and `New` returns its error. -/
theorem New_unknown_level_returns_no_error :
    (applyOptions
        [WithLogging "verbose" "none" "",
         WithTimeout (1 * Second) (1 * Second) (3 * Second) (10 * Second) (3 * Second)]
        (newServer "test-server" "0.0.0.0:8080")).Timeout.ReadTimeout ≤
      (applyOptions
        [WithLogging "verbose" "none" "",
         WithTimeout (1 * Second) (1 * Second) (3 * Second) (10 * Second) (3 * Second)]
        (newServer "test-server" "0.0.0.0:8080")).Timeout.RequestTimeout ∧
    validLevelTag "verbose" = false ∧
    New sampleEnv "test-server" "0.0.0.0:8080"
        [WithLogging "verbose" "none" "",
         WithTimeout (1 * Second) (1 * Second) (3 * Second) (10 * Second) (3 * Second)] =
      .fatal ∧
    (¬ ∃ err, New sampleEnv "test-server" "0.0.0.0:8080"
        [WithLogging "verbose" "none" "",
         WithTimeout (1 * Second) (1 * Second) (3 * Second) (10 * Second) (3 * Second)] =
      .error err) ∧
    New sampleEnv "test-server" "0.0.0.0:8080"
        [WithTimeout (1 * Second) (1 * Second) (3 * Second) (10 * Second) (3 * Second)] =
      .error (NewInvalidError "data" (some (.other "validation failed" false))) := by
  have h : New sampleEnv "test-server" "0.0.0.0:8080"
        [WithLogging "verbose" "none" "",
         WithTimeout (1 * Second) (1 * Second) (3 * Second) (10 * Second) (3 * Second)] =
      .fatal := rfl
  refine ⟨by decide, by decide, h, ?_, rfl⟩
  rw [h]
  rintro ⟨err, he⟩
  cases he

/-- C10: a server that `New` returns for an empty option list carries the
documented defaults: `ReadTimeout` 3s, `RequestTimeout` 1s,
`ShutdownInFlightTimeout` 3s, `ShutdownTaskTimeout` 10s, `WriteTimeout` 3s,
metrics and telemetry disabled, no handlers, no metrics (none published), no
readiness determiners; and for every list of options of the kinds of
`options.go` other than `WithTelemetry`, `GetTelemetry()` of the returned
server is nil. `New` does return a server for an empty option list whenever
the name has three characters, the address passes `hostname_port` and the
logger knows the level `none`. -/
theorem New_defaults_and_no_telemetry (env : Env) (name address : String) :
    (∀ s pub, New env name address [] = .ok s pub →
      s.Timeout.ReadTimeout = 3 * Second ∧ s.Timeout.RequestTimeout = 1 * Second ∧
      s.Timeout.ShutdownInFlightTimeout = 3 * Second ∧
      s.Timeout.ShutdownTaskTimeout = 10 * Second ∧ s.Timeout.WriteTimeout = 3 * Second ∧
      s.EnableMetrics = false ∧ s.EnableTelemetry = false ∧
      s.handlers = [] ∧ s.metrics = [] ∧ s.readinessDeterminers = [] ∧ pub = [] ∧
      s.GetTelemetry = none) ∧
    (∀ opts s pub, (∀ o ∈ opts, IsOptionWithoutTelemetry o) →
      New env name address opts = .ok s pub → s.GetTelemetry = none) ∧
    ((env.MustFromString "none").isSome = true → address ≠ "" →
      env.hostnamePort address = true → 3 ≤ name.length →
      ∃ s pub, New env name address [] = .ok s pub) := by
  have part2 : ∀ opts s pub, (∀ o ∈ opts, IsOptionWithoutTelemetry o) →
      New env name address opts = .ok s pub →
      s.GetTelemetry = none ∧ s.EnableTelemetry = false := by
    intro opts s pub hopts h
    obtain ⟨l, s4, _, hT, _, hs, _⟩ := New_ok_inv env name address opts s pub h
    have ha := applyOptions_without_telemetry opts hopts (newServer name address)
    have hf := newTelemetry_ok_fields env name _ s4 hT
    have he : (applyOptions opts (newServer name address)).EnableTelemetry = false := ha.2
    have h4 : s4.telemetry = none := by
      rw [hf.2.2.2.2.2.2 he]
      exact ha.1
    have h4e : s4.EnableTelemetry = false := by
      rw [hf.2.2.1]
      exact he
    have hn := newHandlers_fields s4
    constructor
    · show s.telemetry = none
      rw [hs, hn.2.2.2.2.2.2.1]
      exact h4
    · rw [hs, hn.2.2.1]
      exact h4e
  refine ⟨?_, fun opts s pub ho h => (part2 opts s pub ho h).1, ?_⟩
  · intro s pub h
    have hnil : ∀ o ∈ ([] : List ServerOption), IsOptionWithoutTelemetry o := by
      intro o ho
      cases ho
    have h2 := part2 [] s pub hnil h
    obtain ⟨l, s4, _, hT, _, hs, hp⟩ := New_ok_inv env name address [] s pub h
    have hf := newTelemetry_ok_fields env name _ s4 hT
    have hn := newHandlers_fields s4
    have hTo : s.Timeout = (newServer name address).Timeout := by
      rw [hs, hn.1, hf.1]
      rfl
    have hM : s4.EnableMetrics = false := by
      rw [hf.2.1]
      rfl
    refine ⟨?_, ?_, ?_, ?_, ?_, ?_, h2.2, ?_, ?_, ?_, ?_, h2.1⟩
    · rw [hTo]; rfl
    · rw [hTo]; rfl
    · rw [hTo]; rfl
    · rw [hTo]; rfl
    · rw [hTo]; rfl
    · rw [hs, hn.2.1]; exact hM
    · rw [hs, hn.2.2.2.1, hf.2.2.2.1]; rfl
    · rw [hs, hn.2.2.2.2.1, hf.2.2.2.2.1]; rfl
    · rw [hs, hn.2.2.2.2.2.1, hf.2.2.2.2.2.1]; rfl
    · rw [hp, hn.2.2.2.2.2.2.2, hM]; rfl
  · intro hl ha hh hlen
    have hname : name ≠ "" := by
      intro hc
      rw [hc] at hlen
      exact absurd hlen (by decide)
    obtain ⟨l, hs⟩ := Setup_isSome env frameworkName "none" "none" "" hl hl
    have hs2 : Setup env frameworkName
        (applyOptions [] (newServer name address)).Logging.ConsoleLevel
        (applyOptions [] (newServer name address)).Logging.RequestLevel
        (applyOptions [] (newServer name address)).Logging.Filepath = some l := hs
    rw [New_eq_of_setup env name address [] l hs2]
    have hT : newTelemetry env name
        { applyOptions [] (newServer name address) with
          logger := some (l.New name)
          router := (applyOptions [] (newServer name address)).router.Use
            (.Logger (l.New name)) } =
        .ok { applyOptions [] (newServer name address) with
          logger := some (l.New name)
          router := (applyOptions [] (newServer name address)).router.Use
            (.Logger (l.New name)) } := rfl
    rw [hT]
    have hv : validServer env
        { applyOptions [] (newServer name address) with
          logger := some (l.New name)
          router := (applyOptions [] (newServer name address)).router.Use
            (.Logger (l.New name)) } = true := by
      unfold validServer
      have h1 : (applyOptions [] (newServer name address)).Address = address := rfl
      have h2 : (applyOptions [] (newServer name address)).Name = name := rfl
      have h3 : validLogging (applyOptions [] (newServer name address)).Logging = true := by
        show validLogging
          { ConsoleLevel := Level.None.String, RequestLevel := Level.None.String,
            Filepath := "" } = true
        decide
      have h4 : validTimeout (applyOptions [] (newServer name address)).Timeout = true := by
        show validTimeout
          { ReadTimeout := defaultTimeout
            RequestTimeout := defaultRequestTimeout
            ShutdownInFlightTimeout := defaultTimeout
            ShutdownTaskTimeout := defaultShutdownTaskTimeout
            WriteTimeout := defaultTimeout } = true
        decide
      simp only [h1, h2, h3, h4, hh, Bool.and_true, Bool.and_eq_true, bne_iff_ne, ne_eq,
        decide_eq_true_eq]
      exact ⟨ha, hname, hlen⟩
    simp only [hv, if_true]
    exact ⟨_, _, rfl⟩

theorem New_defaults_and_no_telemetry_witness :
    (∀ o ∈ [WithHandlers [Liveness], WithLogging "none" "none" ""],
      IsOptionWithoutTelemetry o) ∧
    (∃ s pub, New sampleEnv "test-server" "0.0.0.0:8080"
        [WithHandlers [Liveness], WithLogging "none" "none" ""] = .ok s pub ∧
      s.GetTelemetry = none) ∧
    (∃ s pub, New sampleEnv "test-server" "0.0.0.0:8080" [] = .ok s pub ∧
      (s.Timeout.ReadTimeout = 3 * Second ∧ s.Timeout.RequestTimeout = 1 * Second ∧
       s.Timeout.ShutdownInFlightTimeout = 3 * Second ∧
       s.Timeout.ShutdownTaskTimeout = 10 * Second ∧ s.Timeout.WriteTimeout = 3 * Second ∧
       s.EnableMetrics = false ∧ s.EnableTelemetry = false ∧
       s.handlers = [] ∧ s.metrics = [] ∧ s.readinessDeterminers = [] ∧ pub = [] ∧
       s.GetTelemetry = none)) := by
  have hmem : ∀ o ∈ [WithHandlers [Liveness], WithLogging "none" "none" ""],
      IsOptionWithoutTelemetry o := by
    intro o ho
    simp only [List.mem_cons, List.mem_singleton, List.not_mem_nil, or_false] at ho
    rcases ho with rfl | rfl
    · exact Or.inr (Or.inr (Or.inr (Or.inr (Or.inr ⟨_, rfl⟩))))
    · exact Or.inr (Or.inr (Or.inr (Or.inl ⟨_, _, _, rfl⟩)))
  refine ⟨hmem, ⟨_, _, rfl, ?_⟩, ?_⟩
  · exact (New_defaults_and_no_telemetry sampleEnv "test-server" "0.0.0.0:8080").2.1
      _ _ _ hmem rfl
  · obtain ⟨s, pub, h⟩ :=
      (New_defaults_and_no_telemetry sampleEnv "test-server" "0.0.0.0:8080").2.2
        (by decide) (by decide) (by decide) (by decide)
    exact ⟨s, pub, h,
      (New_defaults_and_no_telemetry sampleEnv "test-server" "0.0.0.0:8080").1 s pub h⟩

/-! # Options (C11, C12) -/

/-- C11: last writer wins. For every configuration `s` and every two options
`a` and `b` of the same kind, applying `a` then `b` to `s` gives the
configuration that `b` alone gives; in particular `WithHandlers`,
`WithMetrics` and `WithReadiness` replace the earlier list, they do not append
to it. -/
theorem options_last_writer_wins (s : Server) (a b : OptionCall)
    (h : optionKind a = optionKind b) :
    optionOf b (optionOf a s) = optionOf b s ∧
    applyOptions [optionOf a, optionOf b] s = applyOptions [optionOf b] s ∧
    (∀ h1 h2, (WithHandlers h2 (WithHandlers h1 s)).handlers = h2) ∧
    (∀ m1 m2, (WithMetrics m2 (WithMetrics m1 s)).metrics = m2) ∧
    (∀ r1 r2, (WithReadiness r2 (WithReadiness r1 s)).readinessDeterminers = r2) := by
  have key : optionOf b (optionOf a s) = optionOf b s := by
    cases a <;> cases b <;> first | rfl | cases h
  exact ⟨key, key, fun _ _ => rfl, fun _ _ => rfl, fun _ _ => rfl⟩

theorem options_last_writer_wins_witness :
    optionKind (.WithTimeout (3 * Second) (1 * Second) (3 * Second) (10 * Second) (3 * Second)) =
      optionKind (.WithTimeout (5 * Second) (2 * Second) (4 * Second) (1 * Second) (6 * Second)) ∧
    (optionOf (.WithTimeout (5 * Second) (2 * Second) (4 * Second) (1 * Second) (6 * Second))
        (optionOf
          (.WithTimeout (3 * Second) (1 * Second) (3 * Second) (10 * Second) (3 * Second))
          sampleServer) =
      optionOf (.WithTimeout (5 * Second) (2 * Second) (4 * Second) (1 * Second) (6 * Second))
        sampleServer ∧
     applyOptions
        [optionOf (.WithTimeout (3 * Second) (1 * Second) (3 * Second) (10 * Second) (3 * Second)),
         optionOf (.WithTimeout (5 * Second) (2 * Second) (4 * Second) (1 * Second) (6 * Second))]
        sampleServer =
      applyOptions
        [optionOf (.WithTimeout (5 * Second) (2 * Second) (4 * Second) (1 * Second) (6 * Second))]
        sampleServer ∧
     (∀ h1 h2, (WithHandlers h2 (WithHandlers h1 sampleServer)).handlers = h2) ∧
     (∀ m1 m2, (WithMetrics m2 (WithMetrics m1 sampleServer)).metrics = m2) ∧
     (∀ r1 r2, (WithReadiness r2 (WithReadiness r1 sampleServer)).readinessDeterminers = r2)) :=
  ⟨rfl, options_last_writer_wins sampleServer _ _ rfl⟩

/-- C12: options commute. For every configuration `s` and every two options
`a` and `b` of different kinds among `WithRouter`, `WithTimeout`,
`WithTelemetry`, `WithMetrics`, `WithLogging`, `WithReadiness` and
`WithHandlers`, applying `a` then `b` to `s` gives the same configuration as
applying `b` then `a`. -/
theorem options_commute (s : Server) (a b : OptionCall) (h : optionKind a ≠ optionKind b) :
    optionOf b (optionOf a s) = optionOf a (optionOf b s) ∧
    applyOptions [optionOf a, optionOf b] s = applyOptions [optionOf b, optionOf a] s := by
  have key : optionOf b (optionOf a s) = optionOf a (optionOf b s) := by
    cases a <;> cases b <;> first | rfl | exact absurd rfl h
  exact ⟨key, key⟩

theorem options_commute_witness :
    optionKind (.WithLogging "error" "error" "") ≠ optionKind (.WithMetrics []) ∧
    (optionOf (.WithMetrics []) (optionOf (.WithLogging "error" "error" "") sampleServer) =
      optionOf (.WithLogging "error" "error" "") (optionOf (.WithMetrics []) sampleServer) ∧
     applyOptions [optionOf (.WithLogging "error" "error" ""), optionOf (.WithMetrics [])]
        sampleServer =
      applyOptions [optionOf (.WithMetrics []), optionOf (.WithLogging "error" "error" "")]
        sampleServer) :=
  ⟨by decide, options_commute sampleServer _ _ (by decide)⟩

/-! # Determiners (C13, C14) -/

theorem runDeterminerOps_cons (heap : Heap) (op : DeterminerOp) (ops : List DeterminerOp) :
    runDeterminerOps heap (op :: ops) = runDeterminerOps (runDeterminerOp heap op) ops := rfl

theorem GetReadiness_runDeterminerOps (heap : Heap) (t : Ptr) (ops : List DeterminerOp) :
    GetReadiness (runDeterminerOps heap ops) t =
      (lastSetReadiness t ops).getD (GetReadiness heap t) := by
  induction ops generalizing heap with
  | nil => rfl
  | cons op ops ih =>
    rw [runDeterminerOps_cons, ih]
    simp only [lastSetReadiness]
    cases hl : lastSetReadiness t ops with
    | some v => rfl
    | none =>
      cases op with
      | SetName t2 name =>
        simp only [Option.getD_none, runDeterminerOp, GetReadiness, SetName, setReadinessArg]
        by_cases h : t = t2 <;> simp [h]
      | GetName t2 => rfl
      | SetReadiness t2 v =>
        simp only [runDeterminerOp, GetReadiness, SetReadiness, setReadinessArg]
        by_cases h : t = t2
        · subst h; simp
        · have h2 : ¬ t2 = t := fun hc => h hc.symm
          simp [h, h2]
      | GetReadiness t2 => rfl

theorem GetName_runDeterminerOps (heap : Heap) (t : Ptr) (ops : List DeterminerOp) :
    GetName (runDeterminerOps heap ops) t = (lastSetName t ops).getD (GetName heap t) := by
  induction ops generalizing heap with
  | nil => rfl
  | cons op ops ih =>
    rw [runDeterminerOps_cons, ih]
    simp only [lastSetName]
    cases hl : lastSetName t ops with
    | some v => rfl
    | none =>
      cases op with
      | SetName t2 name =>
        simp only [runDeterminerOp, GetName, SetName, setNameArg]
        by_cases h : t = t2
        · subst h; simp
        · have h2 : ¬ t2 = t := fun hc => h hc.symm
          simp [h, h2]
      | GetName t2 => rfl
      | SetReadiness t2 v =>
        simp only [Option.getD_none, runDeterminerOp, GetName, SetReadiness, setNameArg]
        by_cases h : t = t2 <;> simp [h]
      | GetReadiness t2 => rfl

theorem lastSetName_none_of_no_SetName (t : Ptr) (ops : List DeterminerOp)
    (h : ∀ m, DeterminerOp.SetName t m ∉ ops) : lastSetName t ops = none := by
  induction ops with
  | nil => rfl
  | cons op ops ih =>
    simp only [lastSetName]
    rw [ih (fun m hm => h m (List.mem_cons_of_mem _ hm))]
    cases op with
    | SetName t2 name =>
      by_cases ht : t2 = t
      · subst ht
        exact absurd (List.mem_cons_self _ _) (h name)
      · simp [ht, setNameArg]
    | GetName t2 => rfl
    | SetReadiness t2 v => rfl
    | GetReadiness t2 => rfl

/-- C13: for every name `n`, `NewReadinessDeterminer(n)` makes a determiner
whose `GetReadiness()` is false; after every sequence of `SetReadiness` calls
on a determiner, `GetReadiness()` is the argument of the most recent call,
and this also holds when operations on this and other determiners are
interleaved: the flag is the argument of the most recent `SetReadiness` on
the determiner, or the flag it had when there is none. `SetReadiness` is a
total function, it has no error case. -/
theorem GetReadiness_latest_SetReadiness (heap : Heap) (t : Ptr) :
    (∀ n, GetReadiness (NewReadinessDeterminer heap t n) t = false) ∧
    (∀ (vs : List Bool) (v : Bool),
      GetReadiness ((vs ++ [v]).foldl (fun h x => SetReadiness h t x) heap) t = v) ∧
    (∀ v, GetReadiness (SetReadiness heap t v) t = v) ∧
    (∀ ops, GetReadiness (runDeterminerOps heap ops) t =
      (lastSetReadiness t ops).getD (GetReadiness heap t)) := by
  refine ⟨?_, ?_, ?_, GetReadiness_runDeterminerOps heap t⟩
  · intro n
    simp [GetReadiness, NewReadinessDeterminer]
  · intro vs v
    rw [List.foldl_append]
    simp [GetReadiness, SetReadiness]
  · intro v
    simp [GetReadiness, SetReadiness]

/-- C14 (the claim fails): `SetName` is an operation of the type; after
`SetName("cache")` on the determiner made by `NewReadinessDeterminer("db")`,
`GetName()` is `cache`, not `db`. -/
theorem GetName_after_SetName_changes :
    GetName dbHeap 0 = "db" ∧
    GetName (runDeterminerOps dbHeap [.SetName 0 "cache"]) 0 = "cache" ∧
    GetName (runDeterminerOps dbHeap [.SetName 0 "cache"]) 0 ≠ "db" := by
  refine ⟨by decide, by decide, by decide⟩

/-- C14 (amended): for every determiner made by `NewReadinessDeterminer(n)` and
every sequence of operations of the type applied afterwards, on this and on
other determiners, in which `SetName` is not called on the determiner,
`GetName()` returns `n`; in general `GetName()` returns the argument of the
most recent `SetName` on the determiner, and `n` when there is none. -/
theorem GetName_fixed_without_SetName (heap : Heap) (t : Ptr) (n : String)
    (ops : List DeterminerOp) (h : ∀ m, DeterminerOp.SetName t m ∉ ops) :
    GetName (runDeterminerOps (NewReadinessDeterminer heap t n) ops) t = n ∧
    (∀ ops2, GetName (runDeterminerOps (NewReadinessDeterminer heap t n) ops2) t =
      (lastSetName t ops2).getD n) := by
  have h0 : GetName (NewReadinessDeterminer heap t n) t = n := by
    simp [GetName, NewReadinessDeterminer]
  constructor
  · rw [GetName_runDeterminerOps, lastSetName_none_of_no_SetName t ops h, h0]
    rfl
  · intro ops2
    rw [GetName_runDeterminerOps, h0]

theorem GetName_fixed_without_SetName_witness :
    (∀ m, DeterminerOp.SetName 0 m ∉
      [DeterminerOp.SetReadiness 0 true, .GetName 0, .SetName 1 "cache", .GetReadiness 0]) ∧
    (GetName (runDeterminerOps
        (NewReadinessDeterminer (fun _ => { name := "", ready := false }) 0 "db")
        [.SetReadiness 0 true, .GetName 0, .SetName 1 "cache", .GetReadiness 0]) 0 = "db" ∧
     (∀ ops2, GetName (runDeterminerOps
        (NewReadinessDeterminer (fun _ => { name := "", ready := false }) 0 "db") ops2) 0 =
      (lastSetName 0 ops2).getD "db")) :=
  ⟨by intro m hm; simp at hm,
   GetName_fixed_without_SetName _ 0 "db" _ (by intro m hm; simp at hm)⟩

/-! # Routes of the server `New` returns (C15) -/

theorem addHandler_eq (router : Router) (handlers : List Handler) :
    addHandler router handlers =
      { router with routes := router.routes ++ handlers.map routeOf } := by
  unfold addHandler
  induction handlers generalizing router with
  | nil => simp
  | cons hd tl ih =>
    rw [List.foldl_cons, ih]
    simp [routeOf, List.append_assoc]

theorem newHandlers_router (s : Server) :
    (newHandlers s).1.router.base = s.router.base ∧
    (newHandlers s).1.router.routes =
      s.router.routes ++ s.handlers.map routeOf ++
        (if 0 < s.readinessDeterminers.length then [routeOf (Readiness s.readinessDeterminers)]
          else []) ++
        (if s.EnableMetrics then [routeOf Metrics] else []) := by
  unfold newHandlers
  simp only [Server.GetRouter, addHandler_eq]
  by_cases hr : 0 < s.readinessDeterminers.length <;>
    cases hm : s.EnableMetrics <;> simp [hr, hm]

theorem newTelemetry_ok_router (env : Env) (name : String) (s s4 : Server)
    (h : newTelemetry env name s = .ok s4) :
    s4.router.base = s.router.base ∧ s4.router.routes = s.router.routes := by
  unfold newTelemetry at h
  cases he : s.EnableTelemetry with
  | false =>
    simp only [he, Bool.false_eq_true, if_false] at h
    cases h
    exact ⟨rfl, rfl⟩
  | true =>
    simp only [he, if_true] at h
    cases ht : s.GetTelemetry.isNone with
    | false =>
      simp only [ht, Bool.false_eq_true, if_false] at h
      cases h
      exact ⟨rfl, rfl⟩
    | true =>
      simp only [ht, if_true] at h
      cases hp : StdoutProvider env name with
      | error e => simp [hp] at h
      | ok t =>
        simp only [hp] at h
        cases h
        exact ⟨rfl, rfl⟩

theorem ServeHTTP_not_found (mux : Mux) (router : Router) (proc : Proc) (r : Request)
    (h : ∀ rt ∈ router.routes, mux.matchPath router.base rt.Path r.path = false) :
    (router.ServeHTTP mux proc r ResponseWriter.fresh).2 =
      httpError ResponseWriter.fresh "404 page not found" StatusNotFound := by
  unfold Router.ServeHTTP
  have h1 : router.routes.find?
      (fun rt => rt.matchesPath mux router.base r && mux.ToUpper rt.Method == r.method) =
        none := by
    rw [List.find?_eq_none]
    intro rt hrt
    have := h rt hrt
    simp [Route.matchesPath, this]
  have h2 : router.routes.any (fun rt => rt.matchesPath mux router.base r) = false := by
    rw [Bool.eq_false_iff]
    intro hc
    rw [List.any_eq_true] at hc
    obtain ⟨rt, hrt, hm⟩ := hc
    have := h rt hrt
    simp [Route.matchesPath, this] at hm
  simp only [h1, h2, Bool.false_eq_true, if_false]

theorem New_routes (env : Env) (name address : String)
    (opts : List ServerOption) (s : Server) (pub : List Metric)
    (h : New env name address opts = .ok s pub) :
    s.router.base = (applyOptions opts (newServer name address)).router.base ∧
    s.router.routes =
      (applyOptions opts (newServer name address)).router.routes ++
        (applyOptions opts (newServer name address)).handlers.map routeOf ++
        (if 0 < (applyOptions opts (newServer name address)).readinessDeterminers.length then
          [routeOf (Readiness (applyOptions opts (newServer name address)).readinessDeterminers)]
          else []) ++
        (if (applyOptions opts (newServer name address)).EnableMetrics then [routeOf Metrics]
          else []) := by
  obtain ⟨l, s4, _, hT, _, hs, _⟩ := New_ok_inv env name address opts s pub h
  have hf := newTelemetry_ok_fields env name _ s4 hT
  have hr := newTelemetry_ok_router env name _ s4 hT
  have hn := newHandlers_router s4
  constructor
  · rw [hs, hn.1, hr.1]
    rfl
  · rw [hs, hn.2, hr.2, hf.2.2.2.1, hf.2.2.2.2.2.1, hf.2.1]
    rfl

theorem New_no_determiners_not_found (env : Env) (mux : Mux) (name address : String)
    (opts : List ServerOption) (s : Server) (pub : List Metric)
    (h : New env name address opts = .ok s pub)
    (hnone : (applyOptions opts (newServer name address)).readinessDeterminers = [])
    (hrt : ∀ rt ∈ (applyOptions opts (newServer name address)).router.routes,
        mux.matchPath (applyOptions opts (newServer name address)).router.base rt.Path
          "/readiness" = false)
    (hhd : ∀ hd ∈ (applyOptions opts (newServer name address)).handlers,
        mux.matchPath (applyOptions opts (newServer name address)).router.base hd.Path
          "/readiness" = false)
    (hmt : (applyOptions opts (newServer name address)).EnableMetrics = true →
        mux.matchPath (applyOptions opts (newServer name address)).router.base Metrics.Path
          "/readiness" = false)
    (proc : Proc) :
    (s.router.ServeHTTP mux proc getReadiness ResponseWriter.fresh).2 =
      httpError ResponseWriter.fresh "404 page not found" StatusNotFound := by
  obtain ⟨hbase, hroutes⟩ := New_routes env name address opts s pub h
  have hno : ∀ rt ∈ s.router.routes,
      mux.matchPath s.router.base rt.Path getReadiness.path = false := by
    intro rt hmem
    rw [hbase]
    rw [hroutes, hnone] at hmem
    simp only [List.length_nil, lt_self_iff_false, if_false, List.append_nil, List.mem_append,
      List.mem_map] at hmem
    rcases hmem with (hmem | ⟨hd, hhdm, rfl⟩) | hmem
    · exact hrt rt hmem
    · exact hhd hd hhdm
    · by_cases hm : (applyOptions opts (newServer name address)).EnableMetrics = true
      · simp only [hm, if_true, List.mem_singleton] at hmem
        rw [hmem]
        exact hmt hm
      · simp [hm] at hmem
  exact ServeHTTP_not_found mux s.router proc getReadiness hno

/-- C15 (the claim fails): the server `New` returns for no option at all, and
the one for `WithReadiness()` with an empty list, answer `GET /readiness` with
`404`, whatever the matching of mux: `New` has registered no route at all. -/
theorem New_without_determiners_readiness_404 :
    (∃ s pub, New sampleEnv "test-server" "0.0.0.0:8080" [] = .ok s pub ∧
      s.router.routes = [] ∧
      ∀ mux : Mux,
        (s.router.ServeHTTP mux tunnelProc getReadiness ResponseWriter.fresh).2.status = 404 ∧
        (s.router.ServeHTTP mux tunnelProc getReadiness ResponseWriter.fresh).2.status ≠ 200) ∧
    (∃ s pub, New sampleEnv "test-server" "0.0.0.0:8080" [WithReadiness []] = .ok s pub ∧
      s.router.routes = [] ∧
      ∀ mux : Mux,
        (s.router.ServeHTTP mux tunnelProc getReadiness ResponseWriter.fresh).2.status = 404 ∧
        (s.router.ServeHTTP mux tunnelProc getReadiness ResponseWriter.fresh).2.body =
          "404 page not found\n") := by
  constructor
  · obtain ⟨s, pub, h⟩ :
        ∃ s pub, New sampleEnv "test-server" "0.0.0.0:8080" [] = .ok s pub := ⟨_, _, rfl⟩
    refine ⟨s, pub, h, ?_, ?_⟩
    · rw [(New_routes sampleEnv "test-server" "0.0.0.0:8080" [] s pub h).2]
      rfl
    · intro mux
      have h404 := New_no_determiners_not_found sampleEnv mux "test-server" "0.0.0.0:8080" []
        s pub h rfl (by intro rt hrt; cases hrt) (by intro hd hhd; cases hhd)
        (by intro hm; cases hm) tunnelProc
      rw [h404]
      refine ⟨rfl, ?_⟩
      intro hc
      have h2 : (httpError ResponseWriter.fresh "404 page not found" StatusNotFound).status =
          404 := rfl
      rw [h2] at hc
      exact absurd hc (by decide)
  · obtain ⟨s, pub, h⟩ :
        ∃ s pub, New sampleEnv "test-server" "0.0.0.0:8080" [WithReadiness []] = .ok s pub :=
      ⟨_, _, rfl⟩
    refine ⟨s, pub, h, ?_, ?_⟩
    · rw [(New_routes sampleEnv "test-server" "0.0.0.0:8080" [WithReadiness []] s pub h).2]
      rfl
    · intro mux
      have h404 := New_no_determiners_not_found sampleEnv mux "test-server" "0.0.0.0:8080"
        [WithReadiness []] s pub h rfl (by intro rt hrt; cases hrt)
        (by intro hd hhd; cases hhd) (by intro hm; cases hm) tunnelProc
      rw [h404]
      exact ⟨rfl, rfl⟩

/-- C15 (amended): for a server built by `New`, the routes of its router are
those of the configured router, then one per configured handler, then the
`/readiness` route exactly when at least one readiness determiner is
configured, then `/debug/vars` when metrics are enabled. With no readiness
determiners configured (`WithReadiness` not applied, or applied with an empty
list) `New` registers no `/readiness` route; when moreover the router is the
fresh `mux.NewRouter()` that `New` creates, a `GET` request to `/readiness` is
answered with status `404` and the body `404 page not found` whenever no path
template of the configured handlers or of the metrics route matches
`/readiness` under the matching of mux. -/
theorem New_registers_readiness_iff_determiners (env : Env) (mux : Mux)
    (name address : String) (opts : List ServerOption) (s : Server) (pub : List Metric)
    (h : New env name address opts = .ok s pub) :
    s.router.base = (applyOptions opts (newServer name address)).router.base ∧
    s.router.routes =
      (applyOptions opts (newServer name address)).router.routes ++
        (applyOptions opts (newServer name address)).handlers.map routeOf ++
        (if 0 < (applyOptions opts (newServer name address)).readinessDeterminers.length then
          [routeOf (Readiness (applyOptions opts (newServer name address)).readinessDeterminers)]
          else []) ++
        (if (applyOptions opts (newServer name address)).EnableMetrics then [routeOf Metrics]
          else []) ∧
    ((applyOptions opts (newServer name address)).readinessDeterminers = [] →
      (applyOptions opts (newServer name address)).router = NewRouter →
      (∀ hd ∈ (applyOptions opts (newServer name address)).handlers,
        mux.matchPath NewRouter.base hd.Path "/readiness" = false) →
      ((applyOptions opts (newServer name address)).EnableMetrics = true →
        mux.matchPath NewRouter.base Metrics.Path "/readiness" = false) →
      ∀ proc,
        (s.router.ServeHTTP mux proc getReadiness ResponseWriter.fresh).2.status = 404 ∧
        (s.router.ServeHTTP mux proc getReadiness ResponseWriter.fresh).2.body =
          "404 page not found\n") := by
  obtain ⟨hbase, hroutes⟩ := New_routes env name address opts s pub h
  refine ⟨hbase, hroutes, ?_⟩
  intro hnone hrouter hhd hmt proc
  have hrt : ∀ rt ∈ (applyOptions opts (newServer name address)).router.routes,
      mux.matchPath (applyOptions opts (newServer name address)).router.base rt.Path
        "/readiness" = false := by
    intro rt hmem
    rw [hrouter] at hmem
    cases hmem
  have hhd2 : ∀ hd ∈ (applyOptions opts (newServer name address)).handlers,
      mux.matchPath (applyOptions opts (newServer name address)).router.base hd.Path
        "/readiness" = false := by
    intro hd hmem
    rw [hrouter]
    exact hhd hd hmem
  have hmt2 : (applyOptions opts (newServer name address)).EnableMetrics = true →
      mux.matchPath (applyOptions opts (newServer name address)).router.base Metrics.Path
        "/readiness" = false := by
    intro hm
    rw [hrouter]
    exact hmt hm
  rw [New_no_determiners_not_found env mux name address opts s pub h hnone hrt hhd2 hmt2 proc]
  exact ⟨rfl, rfl⟩

theorem New_registers_readiness_iff_determiners_witness :
    ∃ s pub, New sampleEnv "test-server" "0.0.0.0:8080"
        [WithHandlers [Liveness], WithReadiness []] = .ok s pub ∧
      ((applyOptions [WithHandlers [Liveness], WithReadiness []]
          (newServer "test-server" "0.0.0.0:8080")).readinessDeterminers = [] ∧
       (applyOptions [WithHandlers [Liveness], WithReadiness []]
          (newServer "test-server" "0.0.0.0:8080")).router = NewRouter ∧
       (∀ hd ∈ (applyOptions [WithHandlers [Liveness], WithReadiness []]
            (newServer "test-server" "0.0.0.0:8080")).handlers,
          literalMux.matchPath NewRouter.base hd.Path "/readiness" = false) ∧
       ((applyOptions [WithHandlers [Liveness], WithReadiness []]
            (newServer "test-server" "0.0.0.0:8080")).EnableMetrics = true →
          literalMux.matchPath NewRouter.base Metrics.Path "/readiness" = false)) ∧
      s.router.routes.map (fun rt => rt.Path) = ["/liveness"] ∧
      ∀ proc,
        (s.router.ServeHTTP literalMux proc getReadiness ResponseWriter.fresh).2.status = 404 ∧
        (s.router.ServeHTTP literalMux proc getReadiness ResponseWriter.fresh).2.body =
          "404 page not found\n" := by
  obtain ⟨s, pub, h⟩ :
      ∃ s pub, New sampleEnv "test-server" "0.0.0.0:8080"
        [WithHandlers [Liveness], WithReadiness []] = .ok s pub := ⟨_, _, rfl⟩
  have hhd : ∀ hd ∈ (applyOptions [WithHandlers [Liveness], WithReadiness []]
      (newServer "test-server" "0.0.0.0:8080")).handlers,
      literalMux.matchPath NewRouter.base hd.Path "/readiness" = false := by
    intro hd hhd
    have hl : hd = Liveness := by
      have h1 : (applyOptions [WithHandlers [Liveness], WithReadiness []]
        (newServer "test-server" "0.0.0.0:8080")).handlers = [Liveness] := rfl
      rw [h1] at hhd
      exact List.mem_singleton.mp hhd
    rw [hl]
    decide
  have hmt : (applyOptions [WithHandlers [Liveness], WithReadiness []]
      (newServer "test-server" "0.0.0.0:8080")).EnableMetrics = true →
      literalMux.matchPath NewRouter.base Metrics.Path "/readiness" = false := by
    intro hm
    cases hm
  have hthm := New_registers_readiness_iff_determiners sampleEnv literalMux "test-server"
    "0.0.0.0:8080" [WithHandlers [Liveness], WithReadiness []] s pub h
  refine ⟨s, pub, h, ⟨rfl, rfl, hhd, hmt⟩, ?_, hthm.2.2 rfl rfl hhd hmt⟩
  rw [hthm.2.1]
  rfl

/-! # The `/stop` handler (C16, C17) -/

/-- C16: for every request, the signal the `/stop` handler passes to
`p.Signal` is the kill signal when the query parameter `hard` is `true`, and
the interrupt signal in every other case (parameter absent, or any other
value); it sends exactly one signal whenever the process is found, and none
otherwise. -/
theorem Stop_signal_choice (proc : Proc) (r : Request) :
    (proc.findProcess = none →
      (serveProc Stop proc r).signalCalls = proc.signalCalls ++
        [if queryGet r.query "hard" = "true" then Signal.Kill else Signal.Interrupt]) ∧
    (proc.findProcess ≠ none → (serveProc Stop proc r).signalCalls = proc.signalCalls) ∧
    (queryGet r.query "hard" = "true" →
      ∀ sig, (serveProc Stop proc r).signalCalls = proc.signalCalls ++ [sig] →
        sig = Signal.Kill) ∧
    (queryGet r.query "hard" ≠ "true" →
      ∀ sig, (serveProc Stop proc r).signalCalls = proc.signalCalls ++ [sig] →
        sig = Signal.Interrupt) := by
  have hsome : ∀ e, proc.findProcess = some e →
      (serveProc Stop proc r).signalCalls = proc.signalCalls := by
    intro e he
    unfold serveProc Stop
    simp only [he]
  have hnone : proc.findProcess = none →
      (serveProc Stop proc r).signalCalls = proc.signalCalls ++
        [if queryGet r.query "hard" = "true" then Signal.Kill else Signal.Interrupt] := by
    intro hf
    unfold serveProc Stop
    simp only [hf]
    cases hs : proc.signal
        (if queryGet r.query "hard" = "true" then Signal.Kill else Signal.Interrupt) <;> rfl
  have hsig : ∀ sig, (serveProc Stop proc r).signalCalls = proc.signalCalls ++ [sig] →
      sig = (if queryGet r.query "hard" = "true" then Signal.Kill else Signal.Interrupt) := by
    intro sig hsig
    cases hf : proc.findProcess with
    | some e =>
      rw [hsome e hf] at hsig
      have := congrArg List.length hsig
      simp at this
    | none =>
      rw [hnone hf] at hsig
      have h2 := List.append_cancel_left hsig
      simp only [List.cons.injEq, and_true] at h2
      exact h2.symm
  refine ⟨hnone, ?_, ?_, ?_⟩
  · intro hf
    cases he : proc.findProcess with
    | none => exact absurd he hf
    | some e => exact hsome e he
  · intro hq sig hs
    rw [hsig sig hs, if_pos hq]
  · intro hq sig hs
    rw [hsig sig hs, if_neg hq]

theorem Stop_signal_choice_witness :
    (tunnelProc.findProcess = none ∧ queryGet getStopHard.query "hard" = "true" ∧
      queryGet getStop.query "hard" ≠ "true") ∧
    (serveProc Stop tunnelProc getStopHard).signalCalls = tunnelProc.signalCalls ++
        [if queryGet getStopHard.query "hard" = "true" then Signal.Kill else Signal.Interrupt] ∧
    (serveProc Stop tunnelProc getStop).signalCalls = [Signal.Interrupt] ∧
    (∀ sig, (serveProc Stop tunnelProc getStopHard).signalCalls =
        tunnelProc.signalCalls ++ [sig] → sig = Signal.Kill) ∧
    (∀ sig, (serveProc Stop tunnelProc getStop).signalCalls =
        tunnelProc.signalCalls ++ [sig] → sig = Signal.Interrupt) :=
  ⟨⟨rfl, by decide, by decide⟩,
   (Stop_signal_choice tunnelProc getStopHard).1 rfl,
   (Stop_signal_choice tunnelProc getStop).1 rfl,
   (Stop_signal_choice tunnelProc getStopHard).2.2.1 (by decide),
   (Stop_signal_choice tunnelProc getStop).2.2.2 (by decide)⟩

/-- C17 (the code departs from the claim): the `/stop` handler writes the
status `200` and the body `OK` before it looks for the process and sends the
signal, so the `http.Error(w, err.Error(), 500)` of the failure branches
comes after the status line: its `WriteHeader(500)` is superfluous, and the
client receives `200` with the error text appended to the body. The status is
`200` for every request, whatever the delivery does; when the delivery
succeeds the body is `OK`. -/
theorem Stop_status_200_on_failure :
    signalFailsProc.signal .Interrupt ≠ none ∧
    (serve Stop signalFailsProc getStop).status = 200 ∧
    (serve Stop signalFailsProc getStop).status ≠ 500 ∧
    (serve Stop signalFailsProc getStop).body = "OK\nos: process already finished\n" ∧
    (∀ proc r, (serve Stop proc r).status = 200) ∧
    (∀ proc r, proc.findProcess = none →
      proc.signal (if queryGet r.query "hard" = "true" then Signal.Kill else Signal.Interrupt) =
        none →
      (serve Stop proc r).body = "OK\n") := by
  refine ⟨by simp [signalFailsProc], by rfl, ?_, by rfl, ?_, ?_⟩
  · intro hc
    have h2 : (serve Stop signalFailsProc getStop).status = 200 := rfl
    rw [h2] at hc
    exact absurd hc (by decide)
  · intro proc r
    cases hf : proc.findProcess with
    | some e =>
      unfold serve Stop
      simp only [hf]
      rfl
    | none =>
      cases hs : proc.signal
        (if queryGet r.query "hard" = "true" then Signal.Kill else Signal.Interrupt) with
      | none =>
        unfold serve Stop
        simp only [hf, hs]
        rfl
      | some e =>
        unfold serve Stop
        simp only [hf, hs]
        rfl
  · intro proc r hf hs
    unfold serve Stop
    simp only [hf, hs]
    rfl

/-! # Tracers (C20) -/

theorem tracersLoad_tracersStore (m : List (String × Option Tracer)) (k q : String)
    (v : Option Tracer) :
    tracersLoad (tracersStore m k v) q = if q = k then some v else tracersLoad m q := by
  unfold tracersLoad tracersStore
  rw [List.find?_append]
  induction m with
  | nil =>
    by_cases h : q = k
    · subst h; simp
    · have h2 : ¬ k = q := fun hc => h hc.symm
      simp [h, h2]
  | cons kv m ih =>
    by_cases hk : kv.1 = k
    · have hf : List.filter (fun kv => kv.1 != k) (kv :: m) =
          List.filter (fun kv => kv.1 != k) m := by
        simp [List.filter_cons, hk]
      rw [hf, ih]
      by_cases h : q = k
      · simp [h]
      · have h2 : ¬ kv.1 = q := by rw [hk]; exact fun hc => h hc.symm
        simp [h, List.find?_cons, h2]
    · have hf : List.filter (fun kv => kv.1 != k) (kv :: m) =
          kv :: List.filter (fun kv => kv.1 != k) m := by
        simp [List.filter_cons, hk]
      rw [hf]
      by_cases hq : kv.1 = q
      · have h : ¬ q = k := by rw [← hq]; exact hk
        simp [List.find?_cons, hq, h]
      · simp only [List.find?_cons, beq_iff_eq, hq, if_false]
        have e1 : (kv.1 == q) = false := by simp [hq]
        simp only [e1]
        exact ih

theorem runNewTracers_cons (t : Telemetry) (c : String × Tracer)
    (calls : List (String × Tracer)) :
    runNewTracers t (c :: calls) = runNewTracers (t.NewTracer c.1 c.2).1 calls := rfl

theorem tracersLoad_runNewTracers (calls : List (String × Tracer)) (t : Telemetry)
    (q : String) :
    tracersLoad (runNewTracers t calls).tracers q =
      match lastCreated q calls with
      | some tracer => some (some tracer)
      | none => tracersLoad t.tracers q := by
  induction calls generalizing t with
  | nil => rfl
  | cons c calls ih =>
    rw [runNewTracers_cons, ih]
    simp only [lastCreated]
    cases hl : lastCreated q calls with
    | some tracer => rfl
    | none =>
      simp only [Telemetry.NewTracer, tracersLoad_tracersStore]
      by_cases h : c.1 = q
      · simp [h]
      · have h2 : ¬ q = c.1 := fun hc => h hc.symm
        simp [h, h2]

theorem tracersLoad_New (name provider : String) (props : List String) (q : String) :
    tracersLoad (Telemetry.New name provider props).1.tracers q =
      if q = globalTracerName then some (some { provider := "otel", name := name }) else none := by
  unfold Telemetry.New
  simp only [tracersLoad_tracersStore]
  rfl

theorem GetGlobalTracer_of_load (t : Telemetry) (g : Tracer) (fuel : Nat)
    (h : tracersLoad t.tracers globalTracerName = some (some g)) :
    t.GetGlobalTracer (fuel + 2) = some g := by
  simp only [Telemetry.GetGlobalTracer, Telemetry.GetTracer, h]

theorem GetTracer_of_load_some (t : Telemetry) (q : String) (tracer : Tracer) (fuel : Nat)
    (h : tracersLoad t.tracers q = some (some tracer)) :
    t.GetTracer (fuel + 1) q = some tracer := by
  simp only [Telemetry.GetTracer, h]

theorem GetTracer_of_load_none (t : Telemetry) (q : String) (g : Tracer) (fuel : Nat)
    (h : tracersLoad t.tracers q = none)
    (hg : tracersLoad t.tracers globalTracerName = some (some g)) :
    t.GetTracer (fuel + 3) q = some g := by
  simp only [Telemetry.GetTracer, h]
  exact GetGlobalTracer_of_load t g fuel hg

/-- C20: for every telemetry made by `telemetry.New` and every sequence of
`NewTracer` calls on it, `GetTracer(name)` terminates (three units of fuel,
one per call of `GetTracer` or `GetGlobalTracer`, are enough, and more change
nothing): it returns the tracer most recently made by `NewTracer(name)` when
there is one, and otherwise the global tracer, the value `GetGlobalTracer()`
returns. -/
theorem GetTracer_latest_or_global (name provider : String) (props : List String)
    (calls : List (String × Tracer)) (q : String) (fuel : Nat) (hfuel : 3 ≤ fuel) :
    ∃ g,
      (runNewTracers (Telemetry.New name provider props).1 calls).GetGlobalTracer fuel =
        some g ∧
      g = (lastCreated globalTracerName calls).getD { provider := "otel", name := name } ∧
      (runNewTracers (Telemetry.New name provider props).1 calls).GetTracer fuel q =
        some ((lastCreated q calls).getD g) := by
  obtain ⟨n, rfl⟩ : ∃ n, fuel = n + 3 := ⟨fuel - 3, by omega⟩
  have hg : tracersLoad (runNewTracers (Telemetry.New name provider props).1 calls).tracers
      globalTracerName =
      some (some ((lastCreated globalTracerName calls).getD
        { provider := "otel", name := name })) := by
    rw [tracersLoad_runNewTracers]
    cases hl : lastCreated globalTracerName calls with
    | some tracer => rfl
    | none =>
      simp only [tracersLoad_New, if_true, Option.getD_none]
  refine ⟨_, GetGlobalTracer_of_load _ _ (n + 1) hg, rfl, ?_⟩
  cases hq : lastCreated q calls with
  | some tracer =>
    have hload : tracersLoad (runNewTracers (Telemetry.New name provider props).1 calls).tracers
        q = some (some tracer) := by
      rw [tracersLoad_runNewTracers, hq]
    exact GetTracer_of_load_some _ q tracer (n + 2) hload
  | none =>
    by_cases hqg : q = globalTracerName
    · subst hqg
      exact GetTracer_of_load_some _ _ _ (n + 2) hg
    · have hload : tracersLoad (runNewTracers (Telemetry.New name provider props).1 calls).tracers
          q = none := by
        rw [tracersLoad_runNewTracers, hq]
        simp only [tracersLoad_New, hqg, if_false]
      simp only [Option.getD_none]
      exact GetTracer_of_load_none _ q _ n hload hg

theorem GetTracer_latest_or_global_witness :
    3 ≤ 3 ∧
    ∃ g,
      (runNewTracers (Telemetry.New "test-server" "stdout" ["TraceContext", "Baggage"]).1
        [("db", { provider := "stdout", name := "db-1" }),
         ("db", { provider := "stdout", name := "db-2" })]).GetGlobalTracer 3 = some g ∧
      g = (lastCreated globalTracerName
        [("db", { provider := "stdout", name := "db-1" }),
         ("db", { provider := "stdout", name := "db-2" })]).getD
          { provider := "otel", name := "test-server" } ∧
      (runNewTracers (Telemetry.New "test-server" "stdout" ["TraceContext", "Baggage"]).1
        [("db", { provider := "stdout", name := "db-1" }),
         ("db", { provider := "stdout", name := "db-2" })]).GetTracer 3 "cache" =
        some ((lastCreated "cache"
          [("db", { provider := "stdout", name := "db-1" }),
           ("db", { provider := "stdout", name := "db-2" })]).getD g) :=
  ⟨le_refl 3, GetTracer_latest_or_global "test-server" "stdout" ["TraceContext", "Baggage"]
    [("db", { provider := "stdout", name := "db-1" }),
     ("db", { provider := "stdout", name := "db-2" })] "cache" 3 (le_refl 3)⟩

/-! # Name and address accepted by `New` (C19) -/

theorem isDigit_ne (c : Char) (h : c.isDigit = true) :
    c ≠ ':' ∧ c ≠ '[' ∧ c ≠ ']' ∧ c ≠ '+' := by
  refine ⟨?_, ?_, ?_, ?_⟩ <;> (intro hc; subst hc; exact absurd h (by decide))

theorem dropWhile_append_stop (p : Char → Bool) (l : List Char) (c : Char) (rest : List Char)
    (hl : ∀ x ∈ l, p x = true) (hc : p c = false) :
    (l ++ c :: rest).dropWhile p = c :: rest ∧ (l ++ c :: rest).takeWhile p = l := by
  induction l with
  | nil => simp [List.dropWhile, List.takeWhile, hc]
  | cons x l ih =>
    have hx := hl x (List.mem_cons_self _ _)
    have ih2 := ih (fun y hy => hl y (List.mem_cons_of_mem _ hy))
    simp [List.dropWhile, List.takeWhile, hx, ih2.1, ih2.2]

theorem splitLastColon_append (host p : List Char) (hp : ∀ c ∈ p, c ≠ ':') :
    splitLastColon (host ++ ':' :: p) = some (host, p) := by
  unfold splitLastColon
  have hr : (host ++ ':' :: p).reverse = p.reverse ++ ':' :: host.reverse := by simp
  have h := dropWhile_append_stop (fun c => c != ':') p.reverse ':' host.reverse
    (by intro x hx; simpa using hp x (List.mem_reverse.mp hx)) (by simp)
  simp only [hr, h.1, h.2, List.reverse_reverse]

theorem contains_false (l : List Char) (a : Char) (h : ∀ c ∈ l, c ≠ a) : l.contains a = false := by
  rw [Bool.eq_false_iff]
  intro hc
  have : a ∈ l := by simpa using hc
  exact h a this rfl

theorem SplitHostPort_mk (host p : List Char)
    (hh : ∀ c ∈ host, c ≠ ':' ∧ c ≠ '[' ∧ c ≠ ']')
    (hp : ∀ c ∈ p, c.isDigit = true) :
    SplitHostPort (String.mk (host ++ ':' :: p)) = some (host, p) := by
  unfold SplitHostPort
  simp only [splitLastColon_append host p (fun c hc => (isDigit_ne c (hp c hc)).1)]
  have hall : ∀ c ∈ host ++ ':' :: p, c ≠ '[' ∧ c ≠ ']' := by
    intro c hc
    rcases List.mem_append.mp hc with h | h
    · exact ⟨(hh c h).2.1, (hh c h).2.2⟩
    · rcases List.mem_cons.mp h with h | h
      · subst h; exact ⟨by decide, by decide⟩
      · exact ⟨(isDigit_ne c (hp c h)).2.1, (isDigit_ne c (hp c h)).2.2.1⟩
  have h1 : host.contains ':' = false := contains_false host ':' (fun c hc => (hh c hc).1)
  have h2 : (host ++ ':' :: p).contains '[' = false :=
    contains_false _ '[' (fun c hc => (hall c hc).1)
  have h3 : (host ++ ':' :: p).contains ']' = false :=
    contains_false _ ']' (fun c hc => (hall c hc).2)
  split
  · rename_i tl heq
    have : '[' ∈ host ++ ':' :: p := by rw [heq]; exact List.mem_cons_self _ _
    exact absurd rfl (hall _ this).1
  · simp only [h1, h2, h3, Bool.false_eq_true, if_false]

theorem stripPlus (c : Char) (cs : List Char) (hc : c ≠ '+') :
    (match c :: cs with
      | '+' :: ds => ds
      | ds => ds) = c :: cs := by
  split
  · rename_i ds heq
    cases heq
    exact absurd rfl hc
  · rfl

theorem parsePort_digits (p : List Char) (hne : p ≠ []) (hp : ∀ c ∈ p, c.isDigit = true) :
    parsePort p = some (decimalValue p) := by
  cases p with
  | nil => exact absurd rfl hne
  | cons c cs =>
    have hc : c ≠ '+' := (isDigit_ne c (hp c (List.mem_cons_self _ _))).2.2.2
    have h2 : (c :: cs).all Char.isDigit = true := List.all_eq_true.mpr hp
    unfold parsePort
    simp only [stripPlus c cs hc, List.isEmpty_cons, Bool.false_eq_true, if_false, h2, if_true]
    rfl

theorem isHostnamePort_mk (host p : List Char)
    (hh : ∀ c ∈ host, c ≠ ':' ∧ c ≠ '[' ∧ c ≠ ']')
    (hv : host = [] ∨ (splitDots host).all validLabel = true)
    (hp : IsPortText p) :
    isHostnamePort (String.mk (host ++ ':' :: p)) = true := by
  obtain ⟨hne, hd, hlo, hhi⟩ := hp
  unfold isHostnamePort
  simp only [SplitHostPort_mk host p hh hd, parsePort_digits p hne hd]
  have h1 : ¬ (decimalValue p > 65535) := by omega
  have h2 : ¬ (decimalValue p < 1) := by omega
  rcases hv with hv | hv
  · subst hv
    simp [h1, h2]
  · simp [h1, h2, hv]

theorem validServer_default (env : Env) (name address : String) (l : Sypl) :
    validServer env
        { applyOptions [] (newServer name address) with
          logger := some (l.New name)
          router := (applyOptions [] (newServer name address)).router.Use
            (.Logger (l.New name)) } = true ↔
      (3 ≤ name.length ∧ address ≠ "" ∧ env.hostnamePort address = true) := by
  unfold validServer
  have h1 : (applyOptions [] (newServer name address)).Address = address := rfl
  have h2 : (applyOptions [] (newServer name address)).Name = name := rfl
  have h3 : validLogging (applyOptions [] (newServer name address)).Logging = true := by
    show validLogging
      { ConsoleLevel := Level.None.String, RequestLevel := Level.None.String,
        Filepath := "" } = true
    decide
  have h4 : validTimeout (applyOptions [] (newServer name address)).Timeout = true := by
    show validTimeout
      { ReadTimeout := defaultTimeout
        RequestTimeout := defaultRequestTimeout
        ShutdownInFlightTimeout := defaultTimeout
        ShutdownTaskTimeout := defaultShutdownTaskTimeout
        WriteTimeout := defaultTimeout } = true
    decide
  simp only [h1, h2, h3, h4, Bool.and_true, Bool.and_eq_true, bne_iff_ne, ne_eq,
    decide_eq_true_eq]
  constructor
  · rintro ⟨⟨ha, hh⟩, _, hlen⟩
    exact ⟨hlen, ha, hh⟩
  · rintro ⟨hlen, ha, hh⟩
    refine ⟨⟨ha, hh⟩, ?_, hlen⟩
    intro hc
    rw [hc] at hlen
    exact absurd hlen (by decide)

theorem New_nil_cases (env : Env) (name address : String)
    (hl : (env.MustFromString "none").isSome = true) :
    ((3 ≤ name.length ∧ address ≠ "" ∧ env.hostnamePort address = true) →
      ∃ s pub, New env name address [] = .ok s pub) ∧
    ((¬ (3 ≤ name.length ∧ address ≠ "" ∧ env.hostnamePort address = true)) →
      ∃ err, New env name address [] = .error err) := by
  obtain ⟨l, hs⟩ := Setup_isSome env frameworkName "none" "none" "" hl hl
  have hs2 : Setup env frameworkName
      (applyOptions [] (newServer name address)).Logging.ConsoleLevel
      (applyOptions [] (newServer name address)).Logging.RequestLevel
      (applyOptions [] (newServer name address)).Logging.Filepath = some l := hs
  have hT : newTelemetry env name
      { applyOptions [] (newServer name address) with
        logger := some (l.New name)
        router := (applyOptions [] (newServer name address)).router.Use
          (.Logger (l.New name)) } =
      .ok { applyOptions [] (newServer name address) with
        logger := some (l.New name)
        router := (applyOptions [] (newServer name address)).router.Use
          (.Logger (l.New name)) } := rfl
  constructor
  · intro hv
    rw [New_eq_of_setup env name address [] l hs2, hT]
    simp only [(validServer_default env name address l).mpr hv, if_true]
    exact ⟨_, _, rfl⟩
  · intro hv
    rw [New_eq_of_setup env name address [] l hs2, hT]
    have hf : validServer env
        { applyOptions [] (newServer name address) with
          logger := some (l.New name)
          router := (applyOptions [] (newServer name address)).router.Use
            (.Logger (l.New name)) } = false := by
      rw [Bool.eq_false_iff]
      exact fun hc => hv ((validServer_default env name address l).mp hc)
    simp only [hf, Bool.false_eq_true, if_false]
    exact ⟨_, rfl⟩

theorem mk_ne_empty (c : Char) (cs : List Char) : String.mk (c :: cs) ≠ "" := by
  intro hc
  have := congrArg String.data hc
  simp at this

/-- C19 (the claim fails): the name `ab` is not empty and the address
`0.0.0.0:8080` is a valid host and port, yet `New` returns an error: the tag
of `Name` is `required,gte=3`. -/
theorem New_rejects_short_name :
    ("ab" : String) ≠ "" ∧
    isHostnamePort "0.0.0.0:8080" = true ∧
    (∃ err, New sampleEnv "ab" "0.0.0.0:8080" [] = .error err) ∧
    ¬ ∃ s pub, New sampleEnv "ab" "0.0.0.0:8080" [] = .ok s pub := by
  have h : New sampleEnv "ab" "0.0.0.0:8080" [] =
      .error (NewInvalidError "data" (some (.other "validation failed" false))) := rfl
  refine ⟨by decide, by decide, ⟨_, h⟩, ?_⟩
  rintro ⟨s, pub, hc⟩
  rw [h] at hc
  cases hc

/-- C19 (amended): with default timeouts and logging (and a logger that knows
the level `none`), `New(name, address)` succeeds exactly when the name has at
least three characters and the address is not empty and passes the
`hostname_port` rule, and returns an error otherwise. The rule rejects the
empty address and a host without a port (`localhost`), and accepts `:NNNN`,
`localhost:NNNN` and `0.0.0.0:NNNN` for every port text `NNNN`, so that with
these addresses `New` succeeds for every name of at least three characters. -/
theorem New_succeeds_iff_name_and_address (env : Env) (name address : String)
    (hl : (env.MustFromString "none").isSome = true) :
    ((∃ s pub, New env name address [] = .ok s pub) ↔
      (3 ≤ name.length ∧ address ≠ "" ∧ env.hostnamePort address = true)) ∧
    ((¬ (3 ≤ name.length ∧ address ≠ "" ∧ env.hostnamePort address = true)) →
      ∃ err, New env name address [] = .error err) ∧
    (isHostnamePort "" = false ∧ isHostnamePort "localhost" = false) ∧
    (∀ p, IsPortText p →
      isHostnamePort (String.mk (':' :: p)) = true ∧
      isHostnamePort (String.mk ("localhost".data ++ ':' :: p)) = true ∧
      isHostnamePort (String.mk ("0.0.0.0".data ++ ':' :: p)) = true) ∧
    ((∃ err, New sampleEnv name "" [] = .error err) ∧
     (∃ err, New sampleEnv name "localhost" [] = .error err)) ∧
    (∀ p, IsPortText p → 3 ≤ name.length →
      (∃ s pub, New sampleEnv name (String.mk (':' :: p)) [] = .ok s pub) ∧
      (∃ s pub, New sampleEnv name (String.mk ("localhost".data ++ ':' :: p)) [] = .ok s pub) ∧
      (∃ s pub, New sampleEnv name (String.mk ("0.0.0.0".data ++ ':' :: p)) [] = .ok s pub)) := by
  have hports : ∀ p, IsPortText p →
      isHostnamePort (String.mk (':' :: p)) = true ∧
      isHostnamePort (String.mk ("localhost".data ++ ':' :: p)) = true ∧
      isHostnamePort (String.mk ("0.0.0.0".data ++ ':' :: p)) = true := by
    intro p hp
    refine ⟨?_, ?_, ?_⟩
    · exact isHostnamePort_mk [] p (by intro c hc; cases hc) (Or.inl rfl) hp
    · exact isHostnamePort_mk "localhost".data p (by decide) (Or.inr (by decide)) hp
    · exact isHostnamePort_mk "0.0.0.0".data p (by decide) (Or.inr (by decide)) hp
  have hsample : (sampleEnv.MustFromString "none").isSome = true := by decide
  refine ⟨⟨?_, (New_nil_cases env name address hl).1⟩, (New_nil_cases env name address hl).2,
    ⟨by decide, by decide⟩, hports, ⟨?_, ?_⟩, ?_⟩
  · rintro ⟨s, pub, hok⟩
    by_contra hc
    obtain ⟨err, he⟩ := (New_nil_cases env name address hl).2 hc
    rw [he] at hok
    cases hok
  · exact (New_nil_cases sampleEnv name "" hsample).2 (fun hc => hc.2.1 rfl)
  · refine (New_nil_cases sampleEnv name "localhost" hsample).2 (fun hc => ?_)
    have h2 : sampleEnv.hostnamePort "localhost" = false := by decide
    rw [h2] at hc
    exact absurd hc.2.2 (by decide)
  · intro p hp hlen
    obtain ⟨h1, h2, h3⟩ := hports p hp
    refine ⟨?_, ?_, ?_⟩
    · exact (New_nil_cases sampleEnv name _ hsample).1 ⟨hlen, mk_ne_empty _ _, h1⟩
    · exact (New_nil_cases sampleEnv name _ hsample).1 ⟨hlen, mk_ne_empty _ _, h2⟩
    · exact (New_nil_cases sampleEnv name _ hsample).1 ⟨hlen, mk_ne_empty _ _, h3⟩

theorem New_succeeds_iff_name_and_address_witness :
    (sampleEnv.MustFromString "none").isSome = true ∧
    (IsPortText "3000".data ∧ 3 ≤ ("test-server" : String).length) ∧
    ((∃ s pub, New sampleEnv "test-server" "0.0.0.0:8080" [] = .ok s pub) ∧
     (∃ s pub, New sampleEnv "test-server" (String.mk ("localhost".data ++ ':' :: "3000".data))
        [] = .ok s pub)) :=
  ⟨by decide,
   ⟨⟨by decide, by decide, by decide, by decide⟩, by decide⟩,
   (New_succeeds_iff_name_and_address sampleEnv "test-server" "0.0.0.0:8080" (by decide)).1.mpr
     ⟨by decide, by decide, by decide⟩,
   ((New_succeeds_iff_name_and_address sampleEnv "test-server" "0.0.0.0:8080"
      (by decide)).2.2.2.2.2 "3000".data
      ⟨by decide, by decide, by decide, by decide⟩ (by decide)).2.1⟩

/-! # The HTTP server `Start` builds, and the error path of the drain (C21, C22) -/

/-- C21: for every server configuration and every run, the `http.Server` that
`Start` builds, as its first action and once, has `Addr` equal to the
configured `Address`, `ReadTimeout` and `WriteTimeout` equal to the configured
ones, and as handler the router of the server under one `http.TimeoutHandler`
whose duration is the configured `RequestTimeout` and whose message is
`ErrRequesTimeout.Error()`; the configuration itself is left as it was. -/
theorem Start_builds_http_server (s : Server) (w : World) :
    (Start s w).server.server.Addr = s.Address ∧
    (Start s w).server.server.ReadTimeout = s.Timeout.ReadTimeout ∧
    (Start s w).server.server.WriteTimeout = s.Timeout.WriteTimeout ∧
    (Start s w).server.server.Handler =
      some { h := s.GetRouter, dt := s.Timeout.RequestTimeout, msg := ErrRequesTimeout.Error } ∧
    (∃ rest, (Start s w).trace = .newHTTPServer (Start s w).server.server :: rest) ∧
    ((Start s w).trace.filter Event.isNewHTTPServer).length = 1 ∧
    ((Start s w).server.Address = s.Address ∧ (Start s w).server.Timeout = s.Timeout ∧
      (Start s w).server.router = s.router) := by
  unfold Start
  cases hf : w.first with
  | serverErr err =>
    exact ⟨rfl, rfl, rfl, rfl, ⟨_, rfl⟩, rfl, rfl, rfl, rfl⟩
  | osSignal sig =>
    cases hs : w.Shutdown with
    | none => exact ⟨rfl, rfl, rfl, rfl, ⟨_, rfl⟩, rfl, rfl, rfl, rfl⟩
    | some e =>
      cases hc : w.Close with
      | none => exact ⟨rfl, rfl, rfl, rfl, ⟨_, rfl⟩, rfl, rfl, rfl, rfl⟩
      | some c => exact ⟨rfl, rfl, rfl, rfl, ⟨_, rfl⟩, rfl, rfl, rfl, rfl⟩

theorem Start_builds_http_server_witness :
    (Start configuredServer worldClean).server.server.Addr = "0.0.0.0:3000" ∧
    (Start configuredServer worldClean).server.server.ReadTimeout = 5 * Second ∧
    (Start configuredServer worldClean).server.server.WriteTimeout = 6 * Second ∧
    (Start configuredServer worldClean).server.server.Handler =
      some { h := configuredServer.router, dt := 2 * Second,
             msg := "failed to finish request, timed out" } :=
  ⟨(Start_builds_http_server configuredServer worldClean).1,
   (Start_builds_http_server configuredServer worldClean).2.1,
   (Start_builds_http_server configuredServer worldClean).2.2.1,
   (Start_builds_http_server configuredServer worldClean).2.2.2.1⟩

/-- C22: on the signal path of `Start`, when the graceful `Shutdown` returns
an error, `Start` returns right after `Close`, with a non-nil error: it does
not sleep for `ShutdownTaskTimeout` and does not receive from the
serving-error channel. The task-drain wait is performed exactly when
`Shutdown` returned no error. -/
theorem Start_shutdown_error_skips_task_wait (s : Server) (w : World) (sig : Signal)
    (h : w.first = .osSignal sig) :
    (w.Shutdown ≠ none →
      (Start s w).trace.any Event.isSleep = false ∧
      (Start s w).trace.any Event.isRecvServerErr = false ∧
      (∃ pre, (Start s w).trace = pre ++ [.Close w.Close, .cancel]) ∧
      (Start s w).err ≠ none) ∧
    ((Start s w).trace.any Event.isSleep = true ↔ w.Shutdown = none) := by
  unfold Start
  simp only [h]
  cases hs : w.Shutdown with
  | none =>
    simp [Event.isSleep]
  | some e =>
    cases hc : w.Close with
    | none =>
      refine ⟨fun _ => ⟨?_, ?_, ⟨[_, _, _, _, _, _, _, _, _, _, _, _], rfl⟩, ?_⟩, ?_⟩
      · simp [Event.isSleep, isTimeoutError, errorsIs, osIsTimeout]
      · simp [Event.isRecvServerErr, isTimeoutError, errorsIs, osIsTimeout]
      · simp [isTimeoutError, errorsIs, osIsTimeout]
      · simp [Event.isSleep, isTimeoutError, errorsIs, osIsTimeout]
    | some c =>
      refine ⟨fun _ => ⟨?_, ?_, ⟨[_, _, _, _, _, _, _, _, _, _, _, _], rfl⟩, ?_⟩, ?_⟩
      · simp [Event.isSleep]
      · simp [Event.isRecvServerErr]
      · simp
      · simp [Event.isSleep]

theorem Start_shutdown_error_skips_task_wait_witness :
    (worldDrainTimeout.first = .osSignal .Interrupt ∧ worldDrainTimeout.Shutdown ≠ none) ∧
    ((Start configuredServer worldDrainTimeout).trace.any Event.isSleep = false ∧
     (Start configuredServer worldDrainTimeout).trace.any Event.isRecvServerErr = false ∧
     (∃ pre, (Start configuredServer worldDrainTimeout).trace =
        pre ++ [.Close worldDrainTimeout.Close, .cancel]) ∧
     (Start configuredServer worldDrainTimeout).err ≠ none) :=
  ⟨⟨rfl, by simp [worldDrainTimeout]⟩,
   (Start_shutdown_error_skips_task_wait configuredServer worldDrainTimeout .Interrupt rfl).1
     (by simp [worldDrainTimeout])⟩

end Webserver
